import Mathlib

/-!
# ANPR dashboard: upload controllers and result renderers

A shallow embedding of `pages/ImageProcessor.jsx` and `pages/VideoProcessor.jsx`.

* Component state (the `useState` cells) is a structure; every handler is a function
  from the state to the new state together with the list of effects it performs
  (network requests, notifications, console output, object-URL creation).
* An `async` handler is split at its `await`: the part that runs inside the click, and
  the continuation that runs when the request settles with some `FetchOutcome`. The
  state updates made by one such uninterrupted run are applied together, as React
  batches them into one render.
* The JSX below `return (` is embedded as a function from the state to a display
  structure that records the elements the markup emits.
-/

namespace ANPR

/-! ## JavaScript values -/

/-- Scalar JavaScript values, as they occur in the id and text fields of a response.
Numbers are the integer-valued ones; `undefined` is what reading an absent property
yields. -/
inductive JsVal where
  | undefined
  | null
  | bool (b : Bool)
  | num (n : Int)
  | str (s : String)
  deriving DecidableEq, Repr

namespace JsVal

/-- JavaScript truthiness (`ToBoolean`). -/
def truthy : JsVal → Bool
  | undefined => false
  | null => false
  | bool b => b
  | num n => n != 0
  | str s => s != ""

/-- The operator `a || b`. -/
def orElse (a b : JsVal) : JsVal := if a.truthy then a else b

/-- String conversion as performed by a template literal `${v}`. -/
def toStr : JsVal → String
  | undefined => "undefined"
  | null => "null"
  | bool true => "true"
  | bool false => "false"
  | num n => toString n
  | str s => s

/-- The text React renders for a `{v}` child: booleans, `null` and `undefined` render
nothing. -/
def reactText : JsVal → String
  | undefined => ""
  | null => ""
  | bool _ => ""
  | num n => toString n
  | str s => s

end JsVal

/-- A value produced by `response.json()`: JSON `null`, or a value whose fields are read
through the record `α`: an object (an array or a truthy scalar behaves like an object
with none of the fields). The falsy scalars `false`, `0` and `""` are not covered. -/
inductive JsonBody (α : Type) where
  | null
  | object (d : α)
  deriving DecidableEq, Repr

/-- Truthiness of a parsed body held in state (`results && ...`). -/
def JsonBody.truthy {α : Type} : JsonBody α → Bool
  | .null => false
  | .object _ => true

/-- The array method `xs.map((x, index) => f x index)`, counting from `start`. -/
def mapIndexed {α β : Type} (f : α → Nat → β) : Nat → List α → List β
  | _, [] => []
  | start, x :: xs => f x start :: mapIndexed f (start + 1) xs

/-- A browser `File`: the fields the components read. -/
structure File where
  name : String
  type : String
  deriving DecidableEq, Repr

/-! ## Numbers

A JavaScript number is a binary64 value; a finite one is represented by its exact value,
a rational. Magnitudes from `10^21` on, which `toFixed` prints in exponential form, and
results beyond the binary64 range are not covered. -/

/-- The integer nearest to `x`, the even one of the two when `x` lies half-way. -/
def roundHalfEven (x : ℚ) : ℤ :=
  let fl := ⌊x⌋
  let r := x - fl
  if r < 1 / 2 then fl
  else if 1 / 2 < r then fl + 1
  else if fl % 2 = 0 then fl else fl + 1

/-- The number of binary digits of `n`; `fuel = n` is always enough. -/
def bitLength : Nat → Nat → Nat
  | 0, _ => 0
  | fuel + 1, n => if n = 0 then 0 else bitLength fuel (n / 2) + 1

/-- The exponent `e` with `2^e ≤ |x| < 2^(e+1)`, for `x ≠ 0`. -/
def binade (x : ℚ) : ℤ :=
  let e0 : ℤ := (bitLength x.num.natAbs x.num.natAbs : ℤ) - (bitLength x.den x.den : ℤ)
  if |x| < (2 : ℚ) ^ e0 then e0 - 1 else e0

/-- The binary64 value nearest to `x` (round to nearest, ties to even, with gradual
underflow): the value a JSON number literal `x` is parsed to, and the value an arithmetic
result `x` is rounded to. -/
def toDouble (x : ℚ) : ℚ :=
  if x = 0 then 0
  else
    let ulp : ℚ := (2 : ℚ) ^ (max (binade x) (-1022) - 52)
    (roundHalfEven (x / ulp) : ℚ) * ulp

/-- The JavaScript product `a * b` of two numbers. -/
def jsMul (a b : ℚ) : ℚ := toDouble (a * b)

/-- The string `s` with zeros put in front up to the given width. -/
def padLeft (width : Nat) (s : String) : String :=
  String.mk (List.replicate (width - s.length) '0') ++ s

/-- The method `x.toFixed(f)`: with `n` the integer for which `n / 10^f` is nearest to
`|x|` (the larger one of two), the digits of `n` with a point before the last `f` of
them, after a minus sign when `x < 0`. -/
def toFixed (x : ℚ) (f : Nat) : String :=
  let n : Nat := (⌊|x| * 10 ^ f + 1 / 2⌋).toNat
  let digits :=
    if f = 0 then Nat.repr n
    else Nat.repr (n / 10 ^ f) ++ "." ++ padLeft f (Nat.repr (n % 10 ^ f))
  if x < 0 then "-" ++ digits else digits

/-! ## Effects and backend outcomes -/

/-- Effects performed by the handlers. -/
inductive Effect where
  /-- The call `fetch(url, { method: 'POST', body: formData })` with `file` appended to the form. -/
  | fetchPost (url : String) (file : File)
  | toastError (msg : String)
  | toastSuccess (msg : String)
  | consoleError (msg : String)
  /-- The call `URL.createObjectURL(file)`, which returned `url`. -/
  | createObjectURL (file : File) (url : String)
  /-- The call `URL.revokeObjectURL(url)`. -/
  | revokeObjectURL (url : String)
  /-- The call `fetch(url)`. -/
  | fetchGet (url : String)
  /-- The call `fetch(url, { method: 'POST', ... })` whose body is the JSON text of the
  object `{ ocr_mode }`. -/
  | fetchPostJson (url : String) (ocr_mode : String)
  /-- The call `setInterval(callback, period)`, which returned the handle `id`. -/
  | setInterval (id : Nat) (period : Nat)
  /-- The call `clearInterval(id)`. -/
  | clearInterval (id : Nat)
  deriving DecidableEq, Repr

/-- Whether an effect is a network request. -/
def Effect.isFetch : Effect → Bool
  | .fetchPost _ _ => true
  | .fetchGet _ => true
  | .fetchPostJson _ _ => true
  | _ => false

/-- Number of network requests in an effect list. -/
def requestCount (es : List Effect) : Nat := (es.filter Effect.isFetch).length

/-- Whether an effect is a notification shown to the user. -/
def Effect.isToast : Effect → Bool
  | .toastError _ => true
  | .toastSuccess _ => true
  | _ => false

/-- The notifications in an effect list. -/
def notifications (es : List Effect) : List Effect := es.filter Effect.isToast

/-- How an awaited `fetch` followed by `response.json()` can settle. -/
inductive FetchOutcome (α : Type) where
  /-- The promise returned by `fetch` rejects. -/
  | networkError
  /-- A response arrived with `status`; `body` is `none` when `response.json()` rejects. -/
  | response (status : Nat) (body : Option (JsonBody α))
  deriving DecidableEq, Repr

/-- The flag `response.ok`: the status is in the range 200 to 299. -/
def responseOk (status : Nat) : Bool := decide (200 ≤ status) && decide (status ≤ 299)

/-- The body the handlers get from `await response.json()`: present exactly when the
request completed with an ok status and the body parsed. -/
def FetchOutcome.parsed {α : Type} : FetchOutcome α → Option (JsonBody α)
  | .networkError => none
  | .response status body => if responseOk status then body else none

/-! ## Image payload and controller (`ImageProcessor.jsx`) -/

/-- One entry of `results.results`: the fields the card of a plate reads. -/
structure Plate where
  plate_text : JsVal := .undefined
  /-- The number `confidence` (its exact value); `none` when absent. -/
  confidence : Option ℚ := none
  /-- The object `char_color_legend`, as its entries `[char, color]`; `none` when absent. -/
  char_color_legend : Option (List (String × List JsVal)) := none
  deriving DecidableEq, Repr

/-- The object returned by `/api/v1/process-image`: the fields the component reads. -/
structure ImageData where
  result_id : JsVal := .undefined
  resultId : JsVal := .undefined
  uuid : JsVal := .undefined
  id : JsVal := .undefined
  /-- The array `results`; `none` when the field is absent or `null`. -/
  results : Option (List Plate) := none
  deriving DecidableEq, Repr

/-- The `useState` cells of `ImageProcessor`. -/
structure ImageState where
  selectedFile : Option File := none
  isProcessing : Bool := false
  results : JsonBody ImageData := .null
  previewUrl : Option String := none
  resultId : JsVal := .null
  isDragActive : Bool := false
  deriving DecidableEq, Repr

namespace ImageProcessor

/-- The state on mount. -/
def initial : ImageState := {}

/-- The function `handleFile`; `url` is the value returned by `URL.createObjectURL(file)`. -/
def handleFile (file : File) (url : String) (s : ImageState) : ImageState × List Effect :=
  ({ s with selectedFile := some file, previewUrl := some url, results := .null,
            resultId := .null },
   [.createObjectURL file url])

/-- The function `handleFileSelect`; `file` is `event.target.files[0]`. -/
def handleFileSelect (file : Option File) (url : String) (s : ImageState) :
    ImageState × List Effect :=
  match file with
  | some f => handleFile f url s
  | none => (s, [])

/-- The function `handleDrop`; `file` is `event.dataTransfer.files[0]`. -/
def handleDrop (file : Option File) (url : String) (s : ImageState) :
    ImageState × List Effect :=
  let s1 := { s with isDragActive := false }
  match file with
  | some f => handleFile f url s1
  | none => (s1, [])

/-- The function `handleDragOver`. -/
def handleDragOver (s : ImageState) : ImageState := { s with isDragActive := true }

/-- The function `handleDragLeave`. -/
def handleDragLeave (s : ImageState) : ImageState := { s with isDragActive := false }

/-- The expression `data.result_id || data.resultId || data.uuid || data.id || null`. -/
def extractResultId (d : ImageData) : JsVal :=
  (((d.result_id.orElse d.resultId).orElse d.uuid).orElse d.id).orElse .null

/-- The endpoint the image is posted to. -/
def endpoint : String := "http://localhost:8000/api/v1/process-image"

/-- The `catch` block followed by the `finally` block of `processImage`. -/
def failed (s : ImageState) : ImageState × List Effect :=
  ({ s with isProcessing := false },
   [.consoleError "Error processing image:",
    .toastError "Failed to process image. Make sure the backend is running."])

/-- The part of `processImage` that runs before the `await`: the validation of the
selection, `setIsProcessing(true)` and the `fetch` call. -/
def processImageBegin (s : ImageState) : ImageState × List Effect :=
  match s.selectedFile with
  | none => (s, [.toastError "Please select an image first"])
  | some file => ({ s with isProcessing := true }, [.fetchPost endpoint file])

/-- The part of `processImage` that runs once the request has settled with outcome `o`,
applied to the state current at that moment. Reading `data.result_id` of a `null` body
throws, which lands in the `catch` block after `setResults(data)` has run. -/
def processImageSettle (o : FetchOutcome ImageData) (s : ImageState) :
    ImageState × List Effect :=
  match o with
  | .networkError => failed s
  | .response status body =>
    if responseOk status then
      match body with
      | none => failed s
      | some data =>
        let s1 := { s with results := data }
        match data with
        | .null => failed s1
        | .object d =>
          ({ s1 with resultId := extractResultId d, isProcessing := false },
           [.toastSuccess "Image processed successfully"])
    else failed s

/-- A whole run of `processImage` from state `s` when the request, if one is made,
settles with outcome `o` and no other handler runs in between. -/
def processImage (o : FetchOutcome ImageData) (s : ImageState) : ImageState × List Effect :=
  match s.selectedFile with
  | none => processImageBegin s
  | some _ =>
    let r1 := processImageBegin s
    let r2 := processImageSettle o r1.1
    (r2.1, r1.2 ++ r2.2)

/-- The attribute `disabled={!selectedFile || isProcessing}` of the Process button. -/
def processDisabled (s : ImageState) : Bool := s.selectedFile.isNone || s.isProcessing

/-- A click on the Process button: a disabled button dispatches no click, an enabled
one runs `onClick={processImage}` up to its `await`. -/
def clickProcess (s : ImageState) : ImageState × List Effect :=
  if processDisabled s then (s, []) else processImageBegin s

/-! ### Rendering of image results -/

/-- The helper `rgb`: the template `rgb(${arr[0]},${arr[1]},${arr[2]})`. -/
def rgb (arr : List JsVal) : String :=
  "rgb(" ++ (arr.getD 0 .undefined).toStr ++ "," ++ (arr.getD 1 .undefined).toStr ++ ","
    ++ (arr.getD 2 .undefined).toStr ++ ")"

/-- The component `VisualizationSteps`: `none` when it returns `null`, otherwise the
`src` of the plate-detection overview image. -/
def VisualizationSteps (resultId : JsVal) : Option String :=
  if resultId.truthy then
    some ("http://localhost:8000/results/" ++ resultId.toStr ++ "/plate_detection.jpg")
  else none

/-- The constant `croppedUrl` computed for the plate at `index`. -/
def croppedUrl (resultId : JsVal) (index : Nat) : Option String :=
  if resultId.truthy then
    some ("http://localhost:8000/results/" ++ resultId.toStr ++ "/cropped_plate_"
      ++ Nat.repr index ++ ".jpg")
  else none

/-- One swatch of the character colour legend: the CSS background and the character. -/
structure LegendEntry where
  background : String
  char : String
  deriving DecidableEq, Repr

/-- The right-hand side of a plate card: the cropped image with its optional legend, or
the fallback paragraph. -/
inductive CroppedView where
  | image (src : String) (alt : String) (legend : Option (List LegendEntry))
  | notAvailable (text : String)
  deriving DecidableEq, Repr

/-- The card rendered for one plate: its React key, the title `Plate n`, the OCR text and
the cropped-plate side. -/
structure PlateCard where
  key : Nat
  title : String
  ocrText : String
  cropped : CroppedView
  deriving DecidableEq, Repr

/-- The body of the `results.results.map` callback. -/
def renderPlate (resultId : JsVal) (plate : Plate) (index : Nat) : PlateCard :=
  { key := index
    title := "Plate " ++ Nat.repr (index + 1)
    ocrText := (plate.plate_text.orElse (.str "N/A")).reactText
    cropped :=
      match croppedUrl resultId index with
      | some url =>
        .image url ("Cropped Plate " ++ Nat.repr (index + 1))
          (plate.char_color_legend.map
            (fun entries => entries.map (fun e => { background := rgb e.2, char := e.1 })))
      | none => .notAvailable "Cropped image not available" }

/-- What is shown below the overview: the cards, or the message for an empty list. -/
inductive PlatesView where
  | cards (cs : List PlateCard)
  | noPlates (text : String)
  deriving DecidableEq, Repr

/-- The results panel: the overview image of `VisualizationSteps` and the plates. -/
structure ResultsPanel where
  overview : Option String
  plates : PlatesView
  deriving DecidableEq, Repr

/-- The conditional `results.results && results.results.length > 0 ? ... : ...`. -/
def renderPlates (resultId : JsVal) (d : ImageData) : PlatesView :=
  match d.results with
  | none => .noPlates "No license plates detected"
  | some plates =>
    if plates.length > 0 then .cards (mapIndexed (renderPlate resultId) 0 plates)
    else .noPlates "No license plates detected"

/-- The block `{results && ( ... )}`: `none` when nothing is rendered. -/
def renderResults (s : ImageState) : Option ResultsPanel :=
  match s.results with
  | .null => none
  | .object d => some { overview := VisualizationSteps s.resultId, plates := renderPlates s.resultId d }

/-- The `src` of the image element of a card, if it has one. -/
def CroppedView.src? : CroppedView → Option String
  | .image src _ _ => some src
  | .notAvailable _ => none

/-- Every media URL that occurs as an image `src` in the results panel. -/
def ResultsPanel.urls (p : ResultsPanel) : List String :=
  p.overview.toList ++
    (match p.plates with
     | .cards cs => cs.filterMap (fun c => c.cropped.src?)
     | .noPlates _ => [])

/-! ### Confidence display -/

/-- What the block `{plate.confidence && ( ... )}` renders: the paragraph `Confidence: `
followed by the span text `value`; the bare text `0` that React shows for the number
zero; or nothing when the confidence is absent. -/
inductive ConfidenceLine where
  | paragraph (value : String)
  | zero
  | absent
  deriving DecidableEq, Repr

/-- The block `{plate.confidence && ( ... {plate.confidence.toFixed(2)}% ... )}`. -/
def confidenceLine (plate : Plate) : ConfidenceLine :=
  match plate.confidence with
  | none => .absent
  | some c => if c = 0 then .zero else .paragraph (toFixed c 2 ++ "%")

/-! ### The controller driven by the user and the network -/

/-- The component together with the number of requests in flight and everything it has
done so far. -/
structure System where
  st : ImageState := {}
  inflight : Nat := 0
  log : List Effect := []
  deriving DecidableEq, Repr

/-- What can happen to the component: the user selects a file (for which the browser
hands out the preview URL `url`), the user clicks the Process button, or a request in
flight settles. -/
inductive Event where
  | select (file : File) (url : String)
  | click
  | settle (o : FetchOutcome ImageData)
  deriving DecidableEq, Repr

/-- One event. A `settle` without a request in flight cannot happen and changes nothing. -/
def step (sys : System) : Event → System
  | .select file url =>
    let r := handleFile file url sys.st
    { sys with st := r.1, log := sys.log ++ r.2 }
  | .click =>
    let r := clickProcess sys.st
    { st := r.1, inflight := sys.inflight + requestCount r.2, log := sys.log ++ r.2 }
  | .settle o =>
    if sys.inflight = 0 then sys
    else
      let r := processImageSettle o sys.st
      { st := r.1, inflight := sys.inflight - 1, log := sys.log ++ r.2 }

/-- The system after a sequence of events, starting from the mounted component. -/
def run (evs : List Event) : System := evs.foldl step {}

/-- The preview URLs handed out for the selections among the events, in order. -/
def selectedUrls : List Event → List String
  | [] => []
  | .select _ url :: evs => url :: selectedUrls evs
  | _ :: evs => selectedUrls evs

end ImageProcessor

/-! ## Video payload and controller (`VideoProcessor.jsx`) -/

/-- The object `licence_plate_details` of a best frame. -/
structure LicencePlateDetails where
  /-- The number `confidence` (its exact value); `none` when absent. -/
  confidence : Option ℚ := none
  deriving DecidableEq, Repr

/-- One entry of `best_frames`. -/
structure BestFrame where
  ocr_result : JsVal := .undefined
  /-- The object `licence_plate_details`; `none` when absent. -/
  licence_plate_details : Option LicencePlateDetails := none
  frame_info : JsVal := .undefined
  deriving DecidableEq, Repr

/-- One entry of `tracked_vehicles`. -/
structure Vehicle where
  vehicle_id : JsVal := .undefined
  /-- The string `vehicle_type`; `none` when absent. -/
  vehicle_type : Option String := none
  best_frames : List BestFrame := []
  deriving DecidableEq, Repr

/-- The object returned by `/api/v1/process-video`: the fields the component reads. -/
structure VideoData where
  result_id : JsVal := .undefined
  /-- The array `tracked_vehicles`; `none` when the field is absent or `null`. -/
  tracked_vehicles : Option (List Vehicle) := none
  deriving DecidableEq, Repr

/-- The `useState` cells of `VideoProcessor`. -/
structure VideoState where
  selectedFile : Option File := none
  isProcessing : Bool := false
  results : JsonBody VideoData := .null
  previewUrl : Option String := none
  isDragActive : Bool := false
  deriving DecidableEq, Repr

namespace VideoProcessor

/-- The state on mount. -/
def initial : VideoState := {}

/-- The function `handleFile`; `url` is the value returned by `URL.createObjectURL(file)`. -/
def handleFile (file : File) (url : String) (s : VideoState) : VideoState × List Effect :=
  ({ s with selectedFile := some file, previewUrl := some url, results := .null },
   [.createObjectURL file url])

/-- The function `handleFileSelect`; `file` is `event.target.files[0]`. -/
def handleFileSelect (file : Option File) (url : String) (s : VideoState) :
    VideoState × List Effect :=
  match file with
  | some f => handleFile f url s
  | none => (s, [])

/-- The function `handleDrop`; `file` is `event.dataTransfer.files[0]`. -/
def handleDrop (file : Option File) (url : String) (s : VideoState) :
    VideoState × List Effect :=
  let s1 := { s with isDragActive := false }
  match file with
  | some f => handleFile f url s1
  | none => (s1, [])

/-- The function `handleDragOver`. -/
def handleDragOver (s : VideoState) : VideoState := { s with isDragActive := true }

/-- The function `handleDragLeave`. -/
def handleDragLeave (s : VideoState) : VideoState := { s with isDragActive := false }

/-- The endpoint the video is posted to. -/
def endpoint : String := "http://localhost:8000/api/v1/process-video"

/-- The `catch` block followed by the `finally` block of `processVideo`. -/
def failed (s : VideoState) : VideoState × List Effect :=
  ({ s with isProcessing := false },
   [.consoleError "Error processing video:",
    .toastError "Failed to process video. Make sure the backend is running."])

/-- The part of `processVideo` that runs before the `await`. -/
def processVideoBegin (s : VideoState) : VideoState × List Effect :=
  match s.selectedFile with
  | none => (s, [.toastError "Please select a video first"])
  | some file => ({ s with isProcessing := true }, [.fetchPost endpoint file])

/-- The part of `processVideo` that runs once the request has settled with outcome `o`,
applied to the state current at that moment. -/
def processVideoSettle (o : FetchOutcome VideoData) (s : VideoState) :
    VideoState × List Effect :=
  match o with
  | .networkError => failed s
  | .response status body =>
    if responseOk status then
      match body with
      | none => failed s
      | some data =>
        ({ s with results := data, isProcessing := false },
         [.toastSuccess "Video processed successfully"])
    else failed s

/-- A whole run of `processVideo` from state `s` when the request, if one is made,
settles with outcome `o` and no other handler runs in between. -/
def processVideo (o : FetchOutcome VideoData) (s : VideoState) : VideoState × List Effect :=
  match s.selectedFile with
  | none => processVideoBegin s
  | some _ =>
    let r1 := processVideoBegin s
    let r2 := processVideoSettle o r1.1
    (r2.1, r1.2 ++ r2.2)

/-- The attribute `disabled={!selectedFile || isProcessing}` of the Process button. -/
def processDisabled (s : VideoState) : Bool := s.selectedFile.isNone || s.isProcessing

/-- A click on the Process button: a disabled button dispatches no click, an enabled
one runs `onClick={processVideo}` up to its `await`. -/
def clickProcess (s : VideoState) : VideoState × List Effect :=
  if processDisabled s then (s, []) else processVideoBegin s

/-! ### Rendering of video results -/

/-- The constant `croppedUrl` computed for a vehicle. -/
def croppedUrl (result_id vehicle_id : JsVal) : Option String :=
  if result_id.truthy then
    some ("http://localhost:8000/results/" ++ result_id.toStr ++ "/vehicle_"
      ++ vehicle_id.toStr ++ "_best.jpg")
  else none

/-- The card rendered for one tracked vehicle: its React key, the title, the type badge,
the OCR and frame lines, and `image`, the `src` of the best-plate image, which is `none`
when the block `{croppedUrl && ( ... )}` renders nothing. -/
structure VehicleCard where
  key : Nat
  title : String
  /-- The badge: the vehicle type with its first character upper-cased (for a type that
  starts with an ASCII character), or `Unknown`. -/
  typeLabel : String
  ocrText : String
  frameText : String
  image : Option String
  deriving DecidableEq, Repr

/-- The body of the `results.tracked_vehicles.map` callback. The result is `none` when
the callback throws: `best_frames[0]` is `undefined`, or `best.licence_plate_details`
is, and a property of it is read. -/
def renderVehicle (result_id : JsVal) (vehicle : Vehicle) (index : Nat) : Option VehicleCard :=
  match vehicle.best_frames.head? with
  | none => none
  | some best =>
    match best.licence_plate_details with
    | none => none
    | some _ =>
      some
        { key := index
          title := "Vehicle " ++ vehicle.vehicle_id.reactText
          typeLabel :=
            match vehicle.vehicle_type with
            | some t => if t = "" then "Unknown" else t.capitalize
            | none => "Unknown"
          ocrText := "OCR: " ++ (best.ocr_result.orElse (.str "N/A")).reactText
          frameText := "Frame: " ++ best.frame_info.reactText
          image := croppedUrl result_id vehicle.vehicle_id }

/-- What the results panel shows: the cards, or the message for an empty list. -/
inductive VehiclesView where
  | cards (cs : List VehicleCard)
  | noVehicles (text : String)
  deriving DecidableEq, Repr

/-- Collects the results of the per-vehicle callbacks; `none` as soon as one throws. -/
def collect {α : Type} : List (Option α) → Option (List α)
  | [] => some []
  | none :: _ => none
  | some x :: rest => (collect rest).map (fun xs => x :: xs)

/-- The conditional `results.tracked_vehicles && results.tracked_vehicles.length > 0 ? ... : ...`;
`none` when rendering throws. -/
def renderVehicles (d : VideoData) : Option VehiclesView :=
  match d.tracked_vehicles with
  | none => some (.noVehicles "No vehicles or license plates detected")
  | some vehicles =>
    if vehicles.length > 0 then
      (collect (mapIndexed (renderVehicle d.result_id) 0 vehicles)).map .cards
    else some (.noVehicles "No vehicles or license plates detected")

/-- The block `{results && ( ... )}`: `some none` when nothing is rendered, `none` when
rendering throws. -/
def renderResults (s : VideoState) : Option (Option VehiclesView) :=
  match s.results with
  | .null => some none
  | .object d => (renderVehicles d).map some

/-- Every media URL that occurs as an image `src` in the results panel. -/
def VehiclesView.urls : VehiclesView → List String
  | .cards cs => cs.filterMap (fun c => c.image)
  | .noVehicles _ => []

/-- The texts of the results panel: title, badge, OCR line and frame line of every card,
or the message for an empty list. -/
def VehiclesView.texts : VehiclesView → List String
  | .cards cs => cs.flatMap (fun c => [c.title, c.typeLabel, c.ocrText, c.frameText])
  | .noVehicles text => [text]

/-! ### Confidence display -/

/-- The text after `Confidence: ` in a vehicle card: the template
`${(confidence * 100).toFixed(1)}%` for a truthy confidence, otherwise `N/A`. -/
def confidenceText (details : LicencePlateDetails) : String :=
  match details.confidence with
  | none => "N/A"
  | some c => if c = 0 then "N/A" else toFixed (jsMul c 100) 1 ++ "%"

/-! ### The controller driven by the user and the network -/

/-- The component together with the number of requests in flight and everything it has
done so far. -/
structure System where
  st : VideoState := {}
  inflight : Nat := 0
  log : List Effect := []
  deriving DecidableEq, Repr

/-- What can happen to the component: the user selects a file (for which the browser
hands out the preview URL `url`), the user clicks the Process button, or a request in
flight settles. -/
inductive Event where
  | select (file : File) (url : String)
  | click
  | settle (o : FetchOutcome VideoData)
  deriving DecidableEq, Repr

/-- One event. A `settle` without a request in flight cannot happen and changes nothing. -/
def step (sys : System) : Event → System
  | .select file url =>
    let r := handleFile file url sys.st
    { sys with st := r.1, log := sys.log ++ r.2 }
  | .click =>
    let r := clickProcess sys.st
    { st := r.1, inflight := sys.inflight + requestCount r.2, log := sys.log ++ r.2 }
  | .settle o =>
    if sys.inflight = 0 then sys
    else
      let r := processVideoSettle o sys.st
      { st := r.1, inflight := sys.inflight - 1, log := sys.log ++ r.2 }

/-- The system after a sequence of events, starting from the mounted component. -/
def run (evs : List Event) : System := evs.foldl step {}

/-- The preview URLs handed out for the selections among the events, in order. -/
def selectedUrls : List Event → List String
  | [] => []
  | .select _ url :: evs => url :: selectedUrls evs
  | _ :: evs => selectedUrls evs

end VideoProcessor

/-! ## Dashboard (`Dashboard.jsx`) -/

/-- The result of a run of an `async` function or promise chain: the new state, the
effects, and whether the promise rejects, that is, an error propagates out of the run. -/
structure Completion (σ : Type) where
  state : σ
  effects : List Effect
  rejected : Bool
  deriving DecidableEq, Repr

/-- The object exchanged with `/api/v1/ocr-mode`. -/
structure OcrData where
  ocr_mode : JsVal := .undefined
  deriving DecidableEq, Repr

/-- The `useState` cells of `OCRModeToggle`. -/
structure OcrState where
  ocrMode : JsVal := .str "local"
  loading : Bool := false
  deriving DecidableEq, Repr

namespace OCRModeToggle

/-- The state on mount. -/
def initial : OcrState := {}

/-- The endpoint of the OCR mode. -/
def endpoint : String := "http://localhost:8000/api/v1/ocr-mode"

/-- The request made by the mount effect. -/
def mountBegin : List Effect := [.fetchGet endpoint]

/-- The chain `.then(res => res.json()).then(data => setOcrMode(data.ocr_mode || 'local'))`
of the mount effect; it has no `catch`, and the status of the response is not looked at. -/
def mountSettle (o : FetchOutcome OcrData) (s : OcrState) : Completion OcrState :=
  match o with
  | .networkError => { state := s, effects := [], rejected := true }
  | .response _ none => { state := s, effects := [], rejected := true }
  | .response _ (some .null) => { state := s, effects := [], rejected := true }
  | .response _ (some (.object d)) =>
    { state := { s with ocrMode := d.ocr_mode.orElse (.str "local") }, effects := [],
      rejected := false }

/-- The constant `newMode` of `switchMode`. -/
def newMode (s : OcrState) : String :=
  if s.ocrMode = .str "local" then "roboflow" else "local"

/-- The part of `switchMode` that runs before the first `await`. -/
def switchModeBegin (s : OcrState) : OcrState × List Effect :=
  ({ s with loading := true }, [.fetchPostJson endpoint (newMode s)])

/-- The part of `switchMode` that runs once the request has settled; the function has no
`try`, and the status of the response is not looked at. -/
def switchModeSettle (o : FetchOutcome OcrData) (s : OcrState) : Completion OcrState :=
  match o with
  | .networkError => { state := s, effects := [], rejected := true }
  | .response _ none => { state := s, effects := [], rejected := true }
  | .response _ (some .null) => { state := s, effects := [], rejected := true }
  | .response _ (some (.object d)) =>
    { state := { s with ocrMode := d.ocr_mode, loading := false }
      effects := [.toastSuccess ("Switched to "
        ++ (if d.ocr_mode = .str "roboflow" then "Roboflow OCR" else "Local OCR"))]
      rejected := false }

/-- The label of the toggle button. -/
def buttonLabel (s : OcrState) : String :=
  if s.ocrMode = .str "roboflow" then "Roboflow OCR" else "Local OCR"

/-- A click on the toggle button, which is disabled while `loading`. -/
def clickSwitch (s : OcrState) : OcrState × List Effect :=
  if s.loading then (s, []) else switchModeBegin s

end OCRModeToggle

/-- The object returned by `/api/v1/stats`: the fields the KPI cards read. -/
structure StatsData where
  totalInferences : JsVal := .undefined
  avgConfidence : JsVal := .undefined
  ocrFailureRate : JsVal := .undefined
  avgProcessingTime : JsVal := .undefined
  deriving DecidableEq, Repr

/-- One row of the recent detections. -/
structure Detection where
  plate : JsVal := .undefined
  /-- The number `confidence` (its exact value); `none` when absent. -/
  confidence : Option ℚ := none
  status : JsVal := .undefined
  timestamp : JsVal := .undefined
  deriving DecidableEq, Repr

/-- The value held in `recentDetections`: an array, or a JSON value that is not one (an
object, a scalar or `null`), which has no `map` method. -/
inductive DetectionsValue where
  | array (rows : List Detection)
  | notArray
  deriving DecidableEq, Repr

/-- How the health request can settle; the body of the response is never read. -/
inductive HealthOutcome where
  | networkError
  | response (status : Nat)
  deriving DecidableEq, Repr

/-- The flag `response.ok` of the health request; `false` when no response arrived. -/
def HealthOutcome.ok : HealthOutcome → Bool
  | .networkError => false
  | .response status => responseOk status

/-- How the recent-detections request followed by `res.json()` can settle; `body` is
`none` when `res.json()` rejects. -/
inductive DetectionsOutcome where
  | networkError
  | response (status : Nat) (body : Option DetectionsValue)
  deriving DecidableEq, Repr

/-- The `useState` cells of `Dashboard`. -/
structure DashboardState where
  backendStatus : String := "checking"
  stats : JsonBody StatsData :=
    .object { totalInferences := .num 0, avgConfidence := .num 0, ocrFailureRate := .num 0,
              avgProcessingTime := .num 0 }
  recentDetections : DetectionsValue := .array []
  deriving DecidableEq, Repr

namespace Dashboard

/-- The state on mount. -/
def initial : DashboardState := {}

/-- The address of the health request. -/
def healthUrl : String := "http://localhost:8000/"

/-- The address of the stats request. -/
def statsUrl : String := "http://localhost:8000/api/v1/stats"

/-- The address of the recent-detections request. -/
def recentUrl : String := "http://localhost:8000/api/v1/recent-detections"

/-- The part of `checkBackendHealth` that runs before the `await`. -/
def checkBackendHealthBegin : List Effect := [.fetchGet healthUrl]

/-- The part of `checkBackendHealth` that runs once the request has settled. -/
def checkBackendHealthSettle (o : HealthOutcome) (s : DashboardState) :
    Completion DashboardState :=
  match o with
  | .networkError =>
    { state := { s with backendStatus := "offline" }
      effects := [.consoleError "Backend health check failed:"]
      rejected := false }
  | .response status =>
    if responseOk status then
      { state := { s with backendStatus := "online" }
        effects := [.toastSuccess "Backend is online and ready"]
        rejected := false }
    else
      { state := { s with backendStatus := "offline" }, effects := [], rejected := false }

/-- The snapshot set by the `catch` of the stats chain. -/
def fallbackStats : StatsData :=
  { totalInferences := .num 1234, avgConfidence := .num 87, ocrFailureRate := .num 12,
    avgProcessingTime := .num 145 }

/-- The rows set by the `catch` of the recent-detections chain. -/
def fallbackDetections : List Detection :=
  [{ plate := .str "ABC123", confidence := some 94, status := .str "Success",
     timestamp := .str "2024-01-15 14:30:22" },
   { plate := .str "XYZ789", confidence := some 87, status := .str "Success",
     timestamp := .str "2024-01-15 14:28:15" },
   { plate := .str "DEF456", confidence := some 72, status := .str "Success",
     timestamp := .str "2024-01-15 14:25:43" },
   { plate := .str "GHI789", confidence := some 45, status := .str "Failed",
     timestamp := .str "2024-01-15 14:22:18" },
   { plate := .str "JKL012", confidence := some 91, status := .str "Success",
     timestamp := .str "2024-01-15 14:20:05" }]

/-- The chain `.then(res => res.json()).then(data => setStats(data)).catch(...)` on the
stats request; the status of the response is not looked at. -/
def statsSettle (o : FetchOutcome StatsData) (s : DashboardState) :
    Completion DashboardState :=
  match o with
  | .networkError =>
    { state := { s with stats := .object fallbackStats }, effects := [], rejected := false }
  | .response _ none =>
    { state := { s with stats := .object fallbackStats }, effects := [], rejected := false }
  | .response _ (some data) =>
    { state := { s with stats := data }, effects := [], rejected := false }

/-- The chain `.then(res => res.json()).then(data => setRecentDetections(data)).catch(...)`
on the recent-detections request; the status of the response is not looked at. -/
def recentSettle (o : DetectionsOutcome) (s : DashboardState) : Completion DashboardState :=
  match o with
  | .networkError =>
    { state := { s with recentDetections := .array fallbackDetections }, effects := [],
      rejected := false }
  | .response _ none =>
    { state := { s with recentDetections := .array fallbackDetections }, effects := [],
      rejected := false }
  | .response _ (some data) =>
    { state := { s with recentDetections := data }, effects := [], rejected := false }

/-- Whether rendering throws for the state: `stats.totalInferences.toLocaleString()`
reads a property of `stats` and calls a method of `stats.totalInferences`, and
`recentDetections.map` is called. -/
def renderThrows (s : DashboardState) : Bool :=
  (match s.stats with
   | .null => true
   | .object d => d.totalInferences = .undefined || d.totalInferences = .null)
  || (match s.recentDetections with
      | .array _ => false
      | .notArray => true)

/-! ### The health poller -/

/-- The interval registered by the mount effect: its handle, its period in milliseconds
and the time at which its callback runs next. -/
structure Timer where
  id : Nat
  period : Nat
  next : Nat
  deriving DecidableEq, Repr

/-- The dashboard view in the browser: the component state, the clock in milliseconds,
the interval held by the view while it is registered, the handle the browser hands out
next, and everything the view has done so far. -/
structure System where
  st : DashboardState := {}
  now : Nat := 0
  interval : Option Timer := none
  nextTimerId : Nat := 1
  log : List Effect := []
  deriving DecidableEq, Repr

/-- The two `useEffect` callbacks run on mount: the health check with the registration
of the interval, then the stats and recent-detections requests. -/
def mount (sys : System) : System :=
  { sys with
    interval := some { id := sys.nextTimerId, period := 30000, next := sys.now + 30000 }
    nextTimerId := sys.nextTimerId + 1
    log := sys.log ++ checkBackendHealthBegin ++ [.setInterval sys.nextTimerId 30000]
      ++ [.fetchGet statsUrl, .fetchGet recentUrl] }

/-- The cleanup `() => clearInterval(interval)` run on unmount. -/
def unmount (sys : System) : System :=
  match sys.interval with
  | some t => { sys with interval := none, log := sys.log ++ [.clearInterval t.id] }
  | none => sys

/-- One millisecond passes; a registered interval whose time has come runs its callback
`checkBackendHealth` and is due again one period later. -/
def tick (sys : System) : System :=
  match sys.interval with
  | some t =>
    if sys.now + 1 = t.next then
      { sys with now := sys.now + 1, interval := some { t with next := t.next + t.period },
                 log := sys.log ++ checkBackendHealthBegin }
    else { sys with now := sys.now + 1 }
  | none => { sys with now := sys.now + 1 }

/-- The passing of `n` milliseconds. -/
def ticks : Nat → System → System
  | 0, sys => sys
  | n + 1, sys => ticks n (tick sys)

/-- The number of health checks started so far. -/
def healthChecks (sys : System) : Nat :=
  (sys.log.filter (fun e => decide (e = .fetchGet healthUrl))).length

end Dashboard

/-- The object URLs that are live after the effects of `log`: created and not revoked. -/
def liveUrls (log : List Effect) : List String :=
  log.foldl
    (fun live e =>
      match e with
      | .createObjectURL _ url => live ++ [url]
      | .revokeObjectURL url => live.filter (fun u => u != url)
      | _ => live)
    []

/-! ## The two upload controllers side by side -/

/-- The body with its payload object translated by `g`. -/
def JsonBody.map {α β : Type} (g : α → β) : JsonBody α → JsonBody β
  | .null => .null
  | .object d => .object (g d)

/-- The same outcome of a request, with the payload object translated by `g`. -/
def FetchOutcome.map {α β : Type} (g : α → β) : FetchOutcome α → FetchOutcome β
  | .networkError => .networkError
  | .response status body => .response status (body.map (JsonBody.map g))

/-- The event of the video controller that corresponds to an event of the image
controller: the same selection, the same click, the same outcome of the request, where
`g` gives the video payload delivered in place of each image payload. -/
def toVideoEvent (g : ImageData → VideoData) : ImageProcessor.Event → VideoProcessor.Event
  | .select file url => .select file url
  | .click => .click
  | .settle o => .settle (o.map g)

/-- The state of the image controller with the resultId cell dropped and the stored
payload translated by `g`. -/
def dropResultId (g : ImageData → VideoData) (s : ImageState) : VideoState :=
  { selectedFile := s.selectedFile
    isProcessing := s.isProcessing
    results := s.results.map g
    previewUrl := s.previewUrl
    isDragActive := s.isDragActive }

/-- The first truthy value of a list of candidates, `null` when there is none. -/
def firstTruthy (candidates : List JsVal) : JsVal :=
  (candidates.find? JsVal.truthy).getD .null

namespace OCRModeToggle

/-- The mode requested by the effects of a click, if a request was made. -/
def requestedMode : List Effect → Option String
  | [] => none
  | .fetchPostJson _ mode :: _ => some mode
  | _ :: es => requestedMode es

/-- A click on the toggle answered by a backend that echoes the requested mode: the
request made by the click settles with status 200 and the object `{ ocr_mode }` holding
the requested mode. -/
def echoSwitch (s : OcrState) : OcrState :=
  let r := clickSwitch s
  match requestedMode r.2 with
  | some mode =>
    (switchModeSettle (.response 200 (some (.object { ocr_mode := .str mode }))) r.1).state
  | none => r.1

end OCRModeToggle

namespace Dashboard

/-- The class of the confidence cell of a recent-detections row: the nested conditional
on `detection.confidence > 90` and `detection.confidence > 75`; a comparison with an
absent confidence is false. -/
def confidenceClass (detection : Detection) : String :=
  match detection.confidence with
  | some c =>
    if c > 90 then "text-green-400"
    else if c > 75 then "text-yellow-400"
    else "text-red-400"
  | none => "text-red-400"

/-- What can happen to the dashboard view: it is mounted or unmounted, a millisecond
passes, the user clicks Refresh Status, or one of its requests settles. -/
inductive Event where
  | mount
  | unmount
  | tick
  | clickRefresh
  | healthSettle (o : HealthOutcome)
  | statsSettle (o : FetchOutcome StatsData)
  | recentSettle (o : DetectionsOutcome)
  deriving DecidableEq, Repr

/-- One event of the dashboard view. The Refresh Status button is disabled while
backendStatus is `checking`; otherwise a click runs `checkBackendHealth` up to its
`await`. -/
def step (sys : System) : Event → System
  | .mount => mount sys
  | .unmount => unmount sys
  | .tick => tick sys
  | .clickRefresh =>
    if sys.st.backendStatus = "checking" then sys
    else { sys with log := sys.log ++ checkBackendHealthBegin }
  | .healthSettle o =>
    let r := checkBackendHealthSettle o sys.st
    { sys with st := r.state, log := sys.log ++ r.effects }
  | .statsSettle o =>
    let r := Dashboard.statsSettle o sys.st
    { sys with st := r.state, log := sys.log ++ r.effects }
  | .recentSettle o =>
    let r := Dashboard.recentSettle o sys.st
    { sys with st := r.state, log := sys.log ++ r.effects }

end Dashboard

/-! ## The pages together -/

/-- The components of the application, each with the state cells it owns: a component
writes its cells through its own setters only. -/
structure App where
  dashboard : Dashboard.System := {}
  ocr : OcrState := {}
  image : ImageProcessor.System := {}
  video : VideoProcessor.System := {}
  deriving DecidableEq, Repr

/-- What can happen in the OCR mode toggle: its mount request settles, the user clicks
it, or the request of a switch settles. -/
inductive OcrEvent where
  | mountSettle (o : FetchOutcome OcrData)
  | click
  | switchSettle (o : FetchOutcome OcrData)
  deriving DecidableEq, Repr

/-- An event of the application: an event of one of its components. -/
inductive AppEvent where
  | dashboard (e : Dashboard.Event)
  | ocr (e : OcrEvent)
  | image (e : ImageProcessor.Event)
  | video (e : VideoProcessor.Event)
  deriving DecidableEq, Repr

/-- One event of the application, handled by the component it belongs to. -/
def App.step (app : App) : AppEvent → App
  | .dashboard e => { app with dashboard := Dashboard.step app.dashboard e }
  | .ocr (.mountSettle o) => { app with ocr := (OCRModeToggle.mountSettle o app.ocr).state }
  | .ocr .click => { app with ocr := (OCRModeToggle.clickSwitch app.ocr).1 }
  | .ocr (.switchSettle o) => { app with ocr := (OCRModeToggle.switchModeSettle o app.ocr).state }
  | .image e => { app with image := ImageProcessor.step app.image e }
  | .video e => { app with video := VideoProcessor.step app.video e }

/-- The application after a sequence of events, starting with every component in its
state on mount. -/
def App.run (evs : List AppEvent) : App := evs.foldl App.step {}

/-- Whether an event is the settlement of a health check. -/
def AppEvent.isHealthSettle : AppEvent → Bool
  | .dashboard (.healthSettle _) => true
  | _ => false

/-! ## Predicates and sample data -/

/-- A tracked vehicle with the string `7` as vehicle_id. -/
def sampleVehicle : Vehicle :=
  { vehicle_id := .str "7", vehicle_type := some "car",
    best_frames := [{ ocr_result := .str "BA2PA1234", licence_plate_details := some {},
                      frame_info := .num 12 }] }

/-- A video result with result_id `abc123` and one tracked vehicle. -/
def sampleVideoData : VideoData :=
  { result_id := .str "abc123", tracked_vehicles := some [sampleVehicle] }

/-- The pairing of the stored result with the stored resultId: whenever a result object
is stored, the stored resultId is the one extracted from that object. -/
def Paired (s : ImageState) : Prop :=
  ∀ d, s.results = .object d → s.resultId = ImageProcessor.extractResultId d

/-- An image file. -/
def sampleFile : File := { name := "car.jpg", type := "image/jpeg" }

/-- An image result with result_id `abc123` and one plate. -/
def sampleImageData : ImageData :=
  { result_id := .str "abc123", results := some [{ plate_text := .str "BA2PA1234" }] }

/-- A later image result, with result_id `def456` and no plate. -/
def laterImageData : ImageData := { result_id := .str "def456", results := some [] }

/-- Whether a displayed text says that something is not available. -/
def mentionsNotAvailable (t : String) : Prop := "not available".data <:+: t.data

instance (t : String) : Decidable (mentionsNotAvailable t) := by
  unfold mentionsNotAvailable
  infer_instance

/-! ## Helper lemmas -/

theorem mapIndexed_length {α β : Type} (f : α → Nat → β) (xs : List α) (start : Nat) :
    (mapIndexed f start xs).length = xs.length := by
  induction xs generalizing start with
  | nil => rfl
  | cons x xs ih => simp [mapIndexed, ih]

theorem mapIndexed_getElem? {α β : Type} (f : α → Nat → β) (xs : List α) (start i : Nat) :
    (mapIndexed f start xs)[i]? = (xs[i]?).map (fun x => f x (start + i)) := by
  induction xs generalizing start i with
  | nil => simp [mapIndexed]
  | cons x xs ih =>
    cases i with
    | zero => simp [mapIndexed]
    | succ j =>
      simp only [mapIndexed, List.getElem?_cons_succ, ih]
      congr 1
      funext y
      congr 1
      omega

theorem mem_mapIndexed {α β : Type} (f : α → Nat → β) (xs : List α) (start : Nat) (y : β)
    (hy : y ∈ mapIndexed f start xs) : ∃ x ∈ xs, ∃ k, start ≤ k ∧ y = f x k := by
  induction xs generalizing start with
  | nil => simp [mapIndexed] at hy
  | cons x xs ih =>
    simp only [mapIndexed, List.mem_cons] at hy
    rcases hy with h | h
    · exact ⟨x, List.mem_cons_self _ _, start, le_refl _, h⟩
    · obtain ⟨x', hx', k, hk, hyk⟩ := ih (start + 1) h
      exact ⟨x', List.mem_cons_of_mem _ hx', k, by omega, hyk⟩

theorem truthy_str (r : String) (hr : r ≠ "") : (JsVal.str r).truthy = true := by
  simp [JsVal.truthy, hr]

theorem collect_length {α : Type} (xs : List (Option α)) (ys : List α)
    (h : VideoProcessor.collect xs = some ys) : ys.length = xs.length := by
  induction xs generalizing ys with
  | nil => simp [VideoProcessor.collect] at h; simp [← h]
  | cons x xs ih =>
    cases x with
    | none => simp [VideoProcessor.collect] at h
    | some a =>
      simp only [VideoProcessor.collect, Option.map_eq_some'] at h
      obtain ⟨zs, hz, rfl⟩ := h
      simp [ih zs hz]

theorem collect_getElem? {α : Type} (xs : List (Option α)) (ys : List α)
    (h : VideoProcessor.collect xs = some ys) (i : Nat) :
    xs[i]? = (ys[i]?).map some := by
  induction xs generalizing ys i with
  | nil =>
    simp only [VideoProcessor.collect, Option.some.injEq] at h
    subst h
    simp
  | cons x xs ih =>
    cases x with
    | none => simp [VideoProcessor.collect] at h
    | some a =>
      simp only [VideoProcessor.collect, Option.map_eq_some'] at h
      obtain ⟨zs, hz, rfl⟩ := h
      cases i with
      | zero => simp
      | succ j => simpa using ih zs hz j

theorem renderVehicle_image (rid : JsVal) (vehicle : Vehicle) (k : Nat)
    (c : VideoProcessor.VehicleCard) (h : VideoProcessor.renderVehicle rid vehicle k = some c) :
    c.image = VideoProcessor.croppedUrl rid vehicle.vehicle_id := by
  unfold VideoProcessor.renderVehicle at h
  split at h
  · simp at h
  · split at h
    · simp at h
    · simp only [Option.some.injEq] at h
      rw [← h]

/-! ### Controller lemmas -/

theorem image_settle_of_not_parsed (o : FetchOutcome ImageData) (s : ImageState)
    (h : o.parsed = none) : ImageProcessor.processImageSettle o s = ImageProcessor.failed s := by
  cases o with
  | networkError => rfl
  | response status body =>
    simp only [FetchOutcome.parsed] at h
    simp only [ImageProcessor.processImageSettle]
    split
    · rename_i hok
      simp only [hok, if_true] at h
      subst h
      rfl
    · rfl

theorem image_settle_object (o : FetchOutcome ImageData) (s : ImageState) (d : ImageData)
    (h : o.parsed = some (.object d)) :
    ImageProcessor.processImageSettle o s
      = ({ s with results := .object d, resultId := ImageProcessor.extractResultId d,
                  isProcessing := false },
         [.toastSuccess "Image processed successfully"]) := by
  cases o with
  | networkError => simp [FetchOutcome.parsed] at h
  | response status body =>
    simp only [FetchOutcome.parsed] at h
    split at h
    · rename_i hok
      subst h
      simp [ImageProcessor.processImageSettle, hok]
    · simp at h

theorem image_settle_null (o : FetchOutcome ImageData) (s : ImageState)
    (h : o.parsed = some .null) :
    ImageProcessor.processImageSettle o s
      = ImageProcessor.failed { s with results := .null } := by
  cases o with
  | networkError => simp [FetchOutcome.parsed] at h
  | response status body =>
    simp only [FetchOutcome.parsed] at h
    split at h
    · rename_i hok
      subst h
      simp [ImageProcessor.processImageSettle, hok]
    · simp at h

theorem video_settle_of_not_parsed (o : FetchOutcome VideoData) (s : VideoState)
    (h : o.parsed = none) : VideoProcessor.processVideoSettle o s = VideoProcessor.failed s := by
  cases o with
  | networkError => rfl
  | response status body =>
    simp only [FetchOutcome.parsed] at h
    simp only [VideoProcessor.processVideoSettle]
    split
    · rename_i hok
      simp only [hok, if_true] at h
      subst h
      rfl
    · rfl

theorem video_settle_parsed (o : FetchOutcome VideoData) (s : VideoState)
    (data : JsonBody VideoData) (h : o.parsed = some data) :
    VideoProcessor.processVideoSettle o s
      = ({ s with results := data, isProcessing := false },
         [.toastSuccess "Video processed successfully"]) := by
  cases o with
  | networkError => simp [FetchOutcome.parsed] at h
  | response status body =>
    simp only [FetchOutcome.parsed] at h
    split at h
    · rename_i hok
      subst h
      simp [VideoProcessor.processVideoSettle, hok]
    · simp at h

theorem paired_settle (o : FetchOutcome ImageData) (s : ImageState) (h : Paired s) :
    Paired (ImageProcessor.processImageSettle o s).1 := by
  cases hp : o.parsed with
  | none =>
    rw [image_settle_of_not_parsed o s hp]
    exact h
  | some data =>
    cases data with
    | null =>
      rw [image_settle_null o s hp]
      intro d hd
      simp [ImageProcessor.failed] at hd
    | object d0 =>
      rw [image_settle_object o s d0 hp]
      intro d hd
      simp only [JsonBody.object.injEq] at hd
      subst hd
      rfl

theorem paired_step (sys : ImageProcessor.System) (e : ImageProcessor.Event)
    (h : Paired sys.st) : Paired (ImageProcessor.step sys e).st := by
  cases e with
  | select file url =>
    intro d hd
    simp [ImageProcessor.step, ImageProcessor.handleFile] at hd
  | click =>
    simp only [ImageProcessor.step, ImageProcessor.clickProcess]
    split
    · exact h
    · unfold ImageProcessor.processImageBegin
      split
      · exact h
      · exact h
  | settle o =>
    simp only [ImageProcessor.step]
    split
    · exact h
    · exact paired_settle o sys.st h

theorem paired_foldl (evs : List ImageProcessor.Event) (sys : ImageProcessor.System)
    (h : Paired sys.st) : Paired (evs.foldl ImageProcessor.step sys).st := by
  induction evs generalizing sys with
  | nil => exact h
  | cons e evs ih => exact ih _ (paired_step sys e h)

theorem image_inflight_step (sys : ImageProcessor.System) (e : ImageProcessor.Event)
    (h : sys.inflight = if sys.st.isProcessing then 1 else 0) :
    (ImageProcessor.step sys e).inflight
      = if (ImageProcessor.step sys e).st.isProcessing then 1 else 0 := by
  cases e with
  | select file url => simpa [ImageProcessor.step, ImageProcessor.handleFile] using h
  | click =>
    simp only [ImageProcessor.step, ImageProcessor.clickProcess]
    split
    · simpa [requestCount] using h
    · rename_i hdis
      simp only [ImageProcessor.processDisabled, Bool.or_eq_true, not_or,
        Bool.not_eq_true] at hdis
      obtain ⟨hsel, hproc⟩ := hdis
      cases hf : sys.st.selectedFile with
      | none => simp [hf] at hsel
      | some file =>
        simp [ImageProcessor.processImageBegin, hf, requestCount, Effect.isFetch, h, hproc]
  | settle o =>
    simp only [ImageProcessor.step]
    split
    · exact h
    · rename_i hpos
      have hproc : sys.st.isProcessing = true := by
        by_contra hc
        simp [hc] at h
        exact hpos h
      have hfalse : (ImageProcessor.processImageSettle o sys.st).1.isProcessing = false := by
        cases hp : o.parsed with
        | none => rw [image_settle_of_not_parsed o _ hp]; rfl
        | some data =>
          cases data with
          | null => rw [image_settle_null o _ hp]; rfl
          | object d => rw [image_settle_object o _ d hp]
      simp [hfalse, h, hproc]

theorem image_inflight_foldl (evs : List ImageProcessor.Event) (sys : ImageProcessor.System)
    (h : sys.inflight = if sys.st.isProcessing then 1 else 0) :
    (evs.foldl ImageProcessor.step sys).inflight
      = if (evs.foldl ImageProcessor.step sys).st.isProcessing then 1 else 0 := by
  induction evs generalizing sys with
  | nil => exact h
  | cons e evs ih => exact ih _ (image_inflight_step sys e h)

theorem video_inflight_step (sys : VideoProcessor.System) (e : VideoProcessor.Event)
    (h : sys.inflight = if sys.st.isProcessing then 1 else 0) :
    (VideoProcessor.step sys e).inflight
      = if (VideoProcessor.step sys e).st.isProcessing then 1 else 0 := by
  cases e with
  | select file url => simpa [VideoProcessor.step, VideoProcessor.handleFile] using h
  | click =>
    simp only [VideoProcessor.step, VideoProcessor.clickProcess]
    split
    · simpa [requestCount] using h
    · rename_i hdis
      simp only [VideoProcessor.processDisabled, Bool.or_eq_true, not_or,
        Bool.not_eq_true] at hdis
      obtain ⟨hsel, hproc⟩ := hdis
      cases hf : sys.st.selectedFile with
      | none => simp [hf] at hsel
      | some file =>
        simp [VideoProcessor.processVideoBegin, hf, requestCount, Effect.isFetch, h, hproc]
  | settle o =>
    simp only [VideoProcessor.step]
    split
    · exact h
    · rename_i hpos
      have hproc : sys.st.isProcessing = true := by
        by_contra hc
        simp [hc] at h
        exact hpos h
      have hfalse : (VideoProcessor.processVideoSettle o sys.st).1.isProcessing = false := by
        cases hp : o.parsed with
        | none => rw [video_settle_of_not_parsed o _ hp]; rfl
        | some data => rw [video_settle_parsed o _ data hp]
      simp [hfalse, h, hproc]

theorem video_inflight_foldl (evs : List VideoProcessor.Event) (sys : VideoProcessor.System)
    (h : sys.inflight = if sys.st.isProcessing then 1 else 0) :
    (evs.foldl VideoProcessor.step sys).inflight
      = if (evs.foldl VideoProcessor.step sys).st.isProcessing then 1 else 0 := by
  induction evs generalizing sys with
  | nil => exact h
  | cons e evs ih => exact ih _ (video_inflight_step sys e h)

/-! ## Result renderer: media URLs -/

/-- C1. Image renderer URL construction: with a non-empty string `r` as resultId, the
plate at 0-based position `i` of the result list gets the cropped-plate URL
`http://localhost:8000/results/r/cropped_plate_i.jpg` (`i` in decimal), both as the value
of `croppedUrl` and as the `src` of the image in the `i`-th card. -/
theorem image_croppedUrl_construction (r : String) (hr : r ≠ "") (d : ImageData)
    (plates : List Plate) (hd : d.results = some plates) (i : Nat) (hi : i < plates.length) :
    ImageProcessor.croppedUrl (.str r) i
        = some ("http://localhost:8000/results/" ++ r ++ "/cropped_plate_" ++ Nat.repr i ++ ".jpg")
      ∧ ∃ cs, ImageProcessor.renderPlates (.str r) d = .cards cs
          ∧ cs.length = plates.length
          ∧ (cs[i]?).map (fun c => c.cropped.src?)
              = some (some ("http://localhost:8000/results/" ++ r ++ "/cropped_plate_"
                  ++ Nat.repr i ++ ".jpg")) := by
  have hu : ∀ k, ImageProcessor.croppedUrl (.str r) k
      = some ("http://localhost:8000/results/" ++ r ++ "/cropped_plate_" ++ Nat.repr k ++ ".jpg") := by
    intro k
    simp [ImageProcessor.croppedUrl, truthy_str r hr, JsVal.toStr]
  refine ⟨hu i, mapIndexed (ImageProcessor.renderPlate (.str r)) 0 plates, ?_, ?_, ?_⟩
  · have hpos : plates.length > 0 := by omega
    simp [ImageProcessor.renderPlates, hd, hpos]
  · exact mapIndexed_length _ _ _
  · rw [mapIndexed_getElem?, List.getElem?_eq_getElem hi]
    simp [ImageProcessor.renderPlate, hu, ImageProcessor.CroppedView.src?]

/-- Witness for C1: resultId `abc123`, third plate of three (index 2). -/
theorem image_croppedUrl_construction_witness :
    ImageProcessor.croppedUrl (.str "abc123") 2
        = some "http://localhost:8000/results/abc123/cropped_plate_2.jpg"
      ∧ ∃ cs, ImageProcessor.renderPlates (.str "abc123")
            { result_id := .str "abc123", results := some [{}, {}, {}] } = .cards cs
          ∧ cs.length = 3
          ∧ (cs[2]?).map (fun c => c.cropped.src?)
              = some (some "http://localhost:8000/results/abc123/cropped_plate_2.jpg") :=
  image_croppedUrl_construction "abc123" (by decide)
    { result_id := .str "abc123", results := some [{}, {}, {}] } [{}, {}, {}] rfl 2 (by decide)

/-- C2. Video renderer URL construction: for a result with a non-empty string `r` as
result_id, every tracked vehicle gets the best-plate URL
`http://localhost:8000/results/r/vehicle_v_best.jpg`, where `v` is its vehicle_id as the
template literal prints it (a string id `v` itself), both as the value of `croppedUrl`
and as the image `src` of the vehicle's card whenever the panel renders. -/
theorem video_croppedUrl_construction (r : String) (hr : r ≠ "") :
    (∀ v : String, VideoProcessor.croppedUrl (.str r) (.str v)
        = some ("http://localhost:8000/results/" ++ r ++ "/vehicle_" ++ v ++ "_best.jpg"))
      ∧ ∀ (d : VideoData) (vehicles : List Vehicle) (cs : List VideoProcessor.VehicleCard),
          d.result_id = .str r → d.tracked_vehicles = some vehicles →
          VideoProcessor.renderVehicles d = some (.cards cs) →
          cs.length = vehicles.length ∧
          ∀ (i : Nat) (vehicle : Vehicle), vehicles[i]? = some vehicle →
            (cs[i]?).map (fun c => c.image)
              = some (some ("http://localhost:8000/results/" ++ r ++ "/vehicle_"
                  ++ vehicle.vehicle_id.toStr ++ "_best.jpg")) := by
  have hu : ∀ v : JsVal, VideoProcessor.croppedUrl (.str r) v
      = some ("http://localhost:8000/results/" ++ r ++ "/vehicle_" ++ v.toStr ++ "_best.jpg") := by
    intro v
    simp [VideoProcessor.croppedUrl, truthy_str r hr, JsVal.toStr]
  refine ⟨fun v => by simpa [JsVal.toStr] using hu (.str v), ?_⟩
  intro d vehicles cs hr' hd hcs
  have hcol : VideoProcessor.collect
      (mapIndexed (VideoProcessor.renderVehicle (.str r)) 0 vehicles) = some cs := by
    simp only [VideoProcessor.renderVehicles, hd, hr'] at hcs
    split at hcs
    · simpa using hcs
    · simp at hcs
  have hlen := collect_length _ _ hcol
  rw [mapIndexed_length] at hlen
  refine ⟨hlen, ?_⟩
  intro i vehicle hi
  have hget := collect_getElem? _ _ hcol i
  rw [mapIndexed_getElem?, hi] at hget
  simp only [Option.map_some'] at hget
  cases hci : cs[i]? with
  | none => simp [hci] at hget
  | some c =>
    rw [hci] at hget
    simp only [Option.map_some', Option.some.injEq] at hget
    have himg := renderVehicle_image _ _ _ _ hget
    simp [himg, hu]

/-- Witness for C2: result `abc123` with one vehicle whose vehicle_id is the string `7`. -/
theorem video_croppedUrl_construction_witness :
    VideoProcessor.croppedUrl (.str "abc123") (.str "7")
        = some "http://localhost:8000/results/abc123/vehicle_7_best.jpg"
      ∧ ∃ cs, VideoProcessor.renderVehicles sampleVideoData = some (.cards cs)
          ∧ (cs[0]?).map (fun c => c.image)
              = some (some "http://localhost:8000/results/abc123/vehicle_7_best.jpg") :=
  ⟨(video_croppedUrl_construction "abc123" (by decide)).1 "7",
   [{ key := 0, title := "Vehicle 7", typeLabel := "Car", ocrText := "OCR: BA2PA1234",
      frameText := "Frame: 12",
      image := some "http://localhost:8000/results/abc123/vehicle_7_best.jpg" }],
   by decide,
   ((video_croppedUrl_construction "abc123" (by decide)).2 sampleVideoData [sampleVehicle] _
      rfl rfl (by decide)).2 0 sampleVehicle rfl⟩

/-! ## Result renderer: missing resultId -/

/-- C3. Image renderer with missing resultId: when a result is shown and the stored
resultId is `null`, the panel has no overview image and contains no media URL at all,
and every plate of a non-empty result list gets a card (one per plate) whose cropped
side is the fallback `Cropped image not available`. -/
theorem image_missing_resultId_fallback (s : ImageState) (d : ImageData)
    (hres : s.results = .object d) (hid : s.resultId = .null) :
    ∃ p, ImageProcessor.renderResults s = some p
      ∧ p.overview = none
      ∧ p.urls = []
      ∧ ∀ plates : List Plate, d.results = some plates → plates ≠ [] →
          ∃ cs, p.plates = .cards cs ∧ cs.length = plates.length
            ∧ ∀ c ∈ cs, c.cropped = .notAvailable "Cropped image not available" := by
  have hcard : ∀ (plate : Plate) (k : Nat),
      (ImageProcessor.renderPlate .null plate k).cropped
        = .notAvailable "Cropped image not available" := by
    intro plate k
    simp [ImageProcessor.renderPlate, ImageProcessor.croppedUrl, JsVal.truthy]
  have hall : ∀ plates : List Plate,
      ∀ c ∈ mapIndexed (ImageProcessor.renderPlate .null) 0 plates,
        c.cropped = .notAvailable "Cropped image not available" := by
    intro plates c hc
    obtain ⟨x, _, k, _, rfl⟩ := mem_mapIndexed _ _ _ _ hc
    exact hcard x k
  refine ⟨{ overview := ImageProcessor.VisualizationSteps .null,
            plates := ImageProcessor.renderPlates .null d }, ?_, ?_, ?_, ?_⟩
  · simp [ImageProcessor.renderResults, hres, hid]
  · simp [ImageProcessor.VisualizationSteps, JsVal.truthy]
  · simp only [ImageProcessor.ResultsPanel.urls, ImageProcessor.VisualizationSteps,
      JsVal.truthy, Bool.false_eq_true, if_false, Option.toList, List.nil_append]
    unfold ImageProcessor.renderPlates
    cases hd : d.results with
    | none => simp
    | some plates =>
      by_cases hpos : plates.length > 0
      · simp only [hpos, if_true, List.filterMap_eq_nil_iff]
        intro c hc
        rw [hall plates c hc]
        rfl
      · simp [hpos]
  · intro plates hd hne
    have hpos : plates.length > 0 := List.length_pos.mpr hne
    refine ⟨mapIndexed (ImageProcessor.renderPlate .null) 0 plates, ?_, ?_, hall plates⟩
    · simp [ImageProcessor.renderPlates, hd, hpos]
    · exact mapIndexed_length _ _ _

/-- Witness for C3: a stored result with two plates and no resultId. -/
theorem image_missing_resultId_fallback_witness :
    ∃ p, ImageProcessor.renderResults
        { results := .object { results := some [{ plate_text := .str "BA2PA1234" }, {}] } }
          = some p
      ∧ p.overview = none
      ∧ p.urls = []
      ∧ ∀ plates : List Plate,
          some [({ plate_text := .str "BA2PA1234" } : Plate), {}] = some plates → plates ≠ [] →
          ∃ cs, p.plates = .cards cs ∧ cs.length = plates.length
            ∧ ∀ c ∈ cs, c.cropped = .notAvailable "Cropped image not available" :=
  image_missing_resultId_fallback
    { results := .object { results := some [{ plate_text := .str "BA2PA1234" }, {}] } }
    { results := some [{ plate_text := .str "BA2PA1234" }, {}] } rfl rfl

/-- C4 at the failing input: for the sample vehicle in a result without result_id the
video panel renders, contains no media URL, and none of the texts it shows says that the
image is not available: the image block is left out without a replacement. The image
renderer, for a plate of a result without resultId, shows the fallback
`Cropped image not available`. -/
theorem video_missing_result_id_no_fallback :
    ∃ view, VideoProcessor.renderResults
        { results := .object { tracked_vehicles := some [sampleVehicle] } } = some (some view)
      ∧ view.urls = []
      ∧ view.texts = ["Vehicle 7", "Car", "OCR: BA2PA1234", "Frame: 12"]
      ∧ (∀ t ∈ view.texts, ¬ mentionsNotAvailable t)
      ∧ mentionsNotAvailable "Cropped image not available"
      ∧ (ImageProcessor.renderPlate .null { plate_text := .str "BA2PA1234" } 0).cropped
          = .notAvailable "Cropped image not available" :=
  ⟨.cards [{ key := 0, title := "Vehicle 7", typeLabel := "Car", ocrText := "OCR: BA2PA1234",
             frameText := "Frame: 12", image := none }],
   by decide, by decide, by decide, by decide, by decide, by decide⟩

/-- Without a result_id the video renderer constructs no media URL: whenever the panel
renders for a result whose result_id is absent (`undefined` or `null`), it contains no
media URL and the image slot of every vehicle card is empty. -/
theorem video_missing_result_id_omits_image (d : VideoData)
    (hid : d.result_id = .undefined ∨ d.result_id = .null)
    (view : VideoProcessor.VehiclesView) (hview : VideoProcessor.renderVehicles d = some view) :
    view.urls = []
      ∧ ∀ cs, view = .cards cs → ∀ c ∈ cs, c.image = none := by
  have hurl : ∀ v, VideoProcessor.croppedUrl d.result_id v = none := by
    intro v
    rcases hid with h | h <;> simp [VideoProcessor.croppedUrl, h, JsVal.truthy]
  have hcards : ∀ cs, view = .cards cs → ∀ c ∈ cs, c.image = none := by
    intro cs hcs c hc
    subst hcs
    unfold VideoProcessor.renderVehicles at hview
    cases hd : d.tracked_vehicles with
    | none => simp [hd] at hview
    | some vehicles =>
      simp only [hd] at hview
      split at hview
      · simp only [Option.map_eq_some', VideoProcessor.VehiclesView.cards.injEq] at hview
        obtain ⟨cs', hcol, rfl⟩ := hview
        obtain ⟨i, hi, hget⟩ := List.getElem_of_mem hc
        have h1 := collect_getElem? _ _ hcol i
        rw [mapIndexed_getElem?, List.getElem?_eq_getElem hi, hget] at h1
        cases hv : vehicles[i]? with
        | none => simp [hv] at h1
        | some vehicle =>
          simp only [hv, Option.map_some', Option.some.injEq] at h1
          rw [renderVehicle_image _ _ _ _ h1, hurl]
      · simp at hview
  refine ⟨?_, hcards⟩
  cases view with
  | cards cs =>
    simp only [VideoProcessor.VehiclesView.urls, List.filterMap_eq_nil_iff]
    intro c hc
    exact hcards cs rfl c hc
  | noVehicles text => rfl

/-- The sample vehicle in a result without result_id: no media URL, an empty image slot. -/
theorem video_missing_result_id_omits_image_witness :
    VideoProcessor.VehiclesView.urls
        (.cards [{ key := 0, title := "Vehicle 7", typeLabel := "Car",
                   ocrText := "OCR: BA2PA1234", frameText := "Frame: 12", image := none }]) = []
      ∧ ∀ cs, VideoProcessor.VehiclesView.cards
            [{ key := 0, title := "Vehicle 7", typeLabel := "Car",
               ocrText := "OCR: BA2PA1234", frameText := "Frame: 12", image := none }]
          = .cards cs → ∀ c ∈ cs, c.image = none :=
  video_missing_result_id_omits_image { tracked_vehicles := some [sampleVehicle] }
    (Or.inl rfl) _ (by decide)

/-! ## Upload controllers: selection -/

/-- C5. Selecting a file resets the controller: from every state of the image
controller, `handleFile f` yields selectedFile = f, results = null and resultId = null;
from every state of the video controller it yields selectedFile = f and results = null. -/
theorem select_resets_controller (f : File) (url : String) :
    (∀ s : ImageState,
        (ImageProcessor.handleFile f url s).1.selectedFile = some f
          ∧ (ImageProcessor.handleFile f url s).1.results = .null
          ∧ (ImageProcessor.handleFile f url s).1.resultId = .null)
      ∧ ∀ s : VideoState,
        (VideoProcessor.handleFile f url s).1.selectedFile = some f
          ∧ (VideoProcessor.handleFile f url s).1.results = .null :=
  ⟨fun _ => ⟨rfl, rfl, rfl⟩, fun _ => ⟨rfl, rfl⟩⟩

/-! ## Upload controllers: submission -/

/-- C6. resultId/payload pairing invariant of the image controller: after every sequence
of file selections, clicks on Process and settlements of the request in flight with
arbitrary outcomes, whenever a result object is stored, the stored resultId is the id
extracted from that same object. -/
theorem resultId_paired_with_payload (evs : List ImageProcessor.Event) (d : ImageData)
    (h : (ImageProcessor.run evs).st.results = .object d) :
    (ImageProcessor.run evs).st.resultId = ImageProcessor.extractResultId d :=
  paired_foldl evs {} (fun _ hd => by simp at hd) d h

/-- Witness for C6: a second submission of the same file replaces both the result and
the resultId of the first. -/
theorem resultId_paired_with_payload_witness :
    (ImageProcessor.run
        [.select sampleFile "blob:1", .click, .settle (.response 200 (some (.object sampleImageData))),
         .click, .settle (.response 200 (some (.object laterImageData)))]).st.results
        = .object laterImageData
      ∧ (ImageProcessor.run
        [.select sampleFile "blob:1", .click, .settle (.response 200 (some (.object sampleImageData))),
         .click, .settle (.response 200 (some (.object laterImageData)))]).st.resultId
        = .str "def456" :=
  ⟨by decide, resultId_paired_with_payload _ laterImageData (by decide)⟩

/-- C7 at the failing input: a response with status 200 whose body parses to JSON `null`
is an ok response with a parsed body, yet `processImage` ends in its `catch` block: it
has cleared the stored result, keeps the resultId of the earlier result and emits the
error notification, no success notification. `processVideo` reports success for the same
response. -/
theorem processImage_null_body_reports_failure :
    (FetchOutcome.response 200 (some (JsonBody.null : JsonBody ImageData))).parsed = some .null
      ∧ ImageProcessor.processImage (.response 200 (some .null))
          { selectedFile := some sampleFile, previewUrl := some "blob:1",
            results := .object sampleImageData, resultId := .str "abc123" }
        = ({ selectedFile := some sampleFile, previewUrl := some "blob:1",
             results := .null, resultId := .str "abc123" },
           [.fetchPost "http://localhost:8000/api/v1/process-image" sampleFile,
            .consoleError "Error processing image:",
            .toastError "Failed to process image. Make sure the backend is running."])
      ∧ VideoProcessor.processVideo (.response 200 (some .null))
          { selectedFile := some sampleFile, previewUrl := some "blob:1" }
        = ({ selectedFile := some sampleFile, previewUrl := some "blob:1", results := .null },
           [.fetchPost "http://localhost:8000/api/v1/process-video" sampleFile,
            .toastSuccess "Video processed successfully"]) :=
  ⟨by decide, by decide, by decide⟩

/-- C8 as stated fails: the file is selected and processed successfully, then the same
file is submitted again and the request fails. The failed submission has completed (no
request in flight, the error notification is the last effect), and the result and the
resultId of the first submission are still stored, so the panel still shows them. -/
theorem failed_resubmission_keeps_earlier_result :
    (ImageProcessor.run
        [.select sampleFile "blob:1", .click,
         .settle (.response 200 (some (.object sampleImageData))),
         .click, .settle .networkError])
      = { st := { selectedFile := some sampleFile, previewUrl := some "blob:1",
                  isProcessing := false, results := .object sampleImageData,
                  resultId := .str "abc123" }
          inflight := 0
          log := [.createObjectURL sampleFile "blob:1",
                  .fetchPost "http://localhost:8000/api/v1/process-image" sampleFile,
                  .toastSuccess "Image processed successfully",
                  .fetchPost "http://localhost:8000/api/v1/process-image" sampleFile,
                  .consoleError "Error processing image:",
                  .toastError "Failed to process image. Make sure the backend is running."] }
      ∧ (ImageProcessor.renderResults (ImageProcessor.run
          [.select sampleFile "blob:1", .click,
           .settle (.response 200 (some (.object sampleImageData))),
           .click, .settle .networkError]).st).isSome = true := by
  constructor <;> decide

/-- C8, amended. A submission that fails through a network error, a non-2xx status or an
unparsable body emits the error notification and no success notification and leaves
results (and for images resultId) exactly as they were when the request settled; so
when the file was selected right before the submission they are null. -/
theorem failed_submission_keeps_results :
    (∀ (o : FetchOutcome ImageData) (s : ImageState), o.parsed = none →
        (ImageProcessor.processImageSettle o s).1.results = s.results
          ∧ (ImageProcessor.processImageSettle o s).1.resultId = s.resultId
          ∧ (ImageProcessor.processImageSettle o s).2
              = [.consoleError "Error processing image:",
                 .toastError "Failed to process image. Make sure the backend is running."])
      ∧ (∀ (o : FetchOutcome VideoData) (s : VideoState), o.parsed = none →
        (VideoProcessor.processVideoSettle o s).1.results = s.results
          ∧ (VideoProcessor.processVideoSettle o s).2
              = [.consoleError "Error processing video:",
                 .toastError "Failed to process video. Make sure the backend is running."])
      ∧ (∀ (o : FetchOutcome ImageData) (s : ImageState) (f : File) (url : String),
          o.parsed = none →
          (ImageProcessor.processImage o (ImageProcessor.handleFile f url s).1).1.results = .null
            ∧ (ImageProcessor.processImage o (ImageProcessor.handleFile f url s).1).1.resultId
                = .null)
      ∧ ∀ (o : FetchOutcome VideoData) (s : VideoState) (f : File) (url : String),
          o.parsed = none →
          (VideoProcessor.processVideo o (VideoProcessor.handleFile f url s).1).1.results
            = .null := by
  refine ⟨?_, ?_, ?_, ?_⟩
  · intro o s h
    rw [image_settle_of_not_parsed o s h]
    exact ⟨rfl, rfl, rfl⟩
  · intro o s h
    rw [video_settle_of_not_parsed o s h]
    exact ⟨rfl, rfl⟩
  · intro o s f url h
    simp only [ImageProcessor.processImage, ImageProcessor.handleFile,
      ImageProcessor.processImageBegin]
    rw [image_settle_of_not_parsed o _ h]
    exact ⟨rfl, rfl⟩
  · intro o s f url h
    simp only [VideoProcessor.processVideo, VideoProcessor.handleFile,
      VideoProcessor.processVideoBegin]
    rw [video_settle_of_not_parsed o _ h]
    rfl

/-- Witness for C8, amended: a 503 response after a successful submission, and a network
failure right after a selection. -/
theorem failed_submission_keeps_results_witness :
    (ImageProcessor.processImageSettle (.response 503 none)
        { selectedFile := some sampleFile, isProcessing := true,
          results := .object sampleImageData, resultId := .str "abc123" }).1.results
        = .object sampleImageData
      ∧ (ImageProcessor.processImage .networkError
          (ImageProcessor.handleFile sampleFile "blob:2"
            { selectedFile := some sampleFile, results := .object sampleImageData,
              resultId := .str "abc123" }).1).1.results = .null :=
  ⟨(failed_submission_keeps_results.1 (.response 503 none) _ (by decide)).1,
   (failed_submission_keeps_results.2.2.1 .networkError _ sampleFile "blob:2" (by decide)).1⟩

/-- C9. At most one in-flight submission per controller: while a submission is in
progress (isProcessing = true) the Process button is disabled, so a further click
performs no network request and leaves the state unchanged; two clicks in quick
succession on an enabled button make exactly one network request; and after every
sequence of selections, clicks and settlements at most one request is in flight. -/
theorem at_most_one_inflight_submission :
    (∀ s : ImageState, s.isProcessing = true → ImageProcessor.clickProcess s = (s, []))
      ∧ (∀ s : VideoState, s.isProcessing = true → VideoProcessor.clickProcess s = (s, []))
      ∧ (∀ s : ImageState, ImageProcessor.processDisabled s = false →
          requestCount ((ImageProcessor.clickProcess s).2
            ++ (ImageProcessor.clickProcess (ImageProcessor.clickProcess s).1).2) = 1)
      ∧ (∀ s : VideoState, VideoProcessor.processDisabled s = false →
          requestCount ((VideoProcessor.clickProcess s).2
            ++ (VideoProcessor.clickProcess (VideoProcessor.clickProcess s).1).2) = 1)
      ∧ (∀ evs, (ImageProcessor.run evs).inflight ≤ 1)
      ∧ ∀ evs, (VideoProcessor.run evs).inflight ≤ 1 := by
  refine ⟨?_, ?_, ?_, ?_, ?_, ?_⟩
  · intro s h
    simp [ImageProcessor.clickProcess, ImageProcessor.processDisabled, h]
  · intro s h
    simp [VideoProcessor.clickProcess, VideoProcessor.processDisabled, h]
  · intro s h
    have h' := h
    simp only [ImageProcessor.processDisabled, Bool.or_eq_false_iff] at h'
    cases hf : s.selectedFile with
    | none => simp [hf] at h'
    | some file =>
      simp [ImageProcessor.clickProcess, ImageProcessor.processImageBegin, hf, h'.2,
        ImageProcessor.processDisabled, requestCount, Effect.isFetch]
  · intro s h
    have h' := h
    simp only [VideoProcessor.processDisabled, Bool.or_eq_false_iff] at h'
    cases hf : s.selectedFile with
    | none => simp [hf] at h'
    | some file =>
      simp [VideoProcessor.clickProcess, VideoProcessor.processVideoBegin, hf, h'.2,
        VideoProcessor.processDisabled, requestCount, Effect.isFetch]
  · intro evs
    have h := image_inflight_foldl evs {} rfl
    unfold ImageProcessor.run
    rw [h]
    split <;> omega
  · intro evs
    have h := video_inflight_foldl evs {} rfl
    unfold VideoProcessor.run
    rw [h]
    split <;> omega

/-- Witness for C9: a click while the image is being processed, and two clicks in a row
on the enabled button. -/
theorem at_most_one_inflight_submission_witness :
    ImageProcessor.clickProcess { selectedFile := some sampleFile, isProcessing := true }
        = ({ selectedFile := some sampleFile, isProcessing := true }, [])
      ∧ requestCount
          ((ImageProcessor.clickProcess { selectedFile := some sampleFile }).2
            ++ (ImageProcessor.clickProcess
                (ImageProcessor.clickProcess { selectedFile := some sampleFile }).1).2) = 1 :=
  ⟨at_most_one_inflight_submission.1 { selectedFile := some sampleFile, isProcessing := true } rfl,
   at_most_one_inflight_submission.2.2.1 { selectedFile := some sampleFile } rfl⟩

/-- C10. Submit without a selection: with no file selected, `processImage` and
`processVideo` perform no network request, emit exactly the validation error message
and leave the whole state (selectedFile, isProcessing, results, resultId and the rest)
unchanged, whatever the backend would have answered. -/
theorem submit_without_selection :
    (∀ (s : ImageState) (o : FetchOutcome ImageData), s.selectedFile = none →
        ImageProcessor.processImage o s = (s, [.toastError "Please select an image first"])
          ∧ requestCount (ImageProcessor.processImage o s).2 = 0)
      ∧ ∀ (s : VideoState) (o : FetchOutcome VideoData), s.selectedFile = none →
        VideoProcessor.processVideo o s = (s, [.toastError "Please select a video first"])
          ∧ requestCount (VideoProcessor.processVideo o s).2 = 0 := by
  constructor
  · intro s o h
    simp [ImageProcessor.processImage, ImageProcessor.processImageBegin, h, requestCount,
      Effect.isFetch]
  · intro s o h
    simp [VideoProcessor.processVideo, VideoProcessor.processVideoBegin, h, requestCount,
      Effect.isFetch]

/-- Witness for C10: the freshly mounted components. -/
theorem submit_without_selection_witness :
    ImageProcessor.processImage .networkError ImageProcessor.initial
        = (ImageProcessor.initial, [.toastError "Please select an image first"])
      ∧ VideoProcessor.processVideo (.response 200 (some (.object sampleVideoData)))
          VideoProcessor.initial
        = (VideoProcessor.initial, [.toastError "Please select a video first"]) :=
  ⟨(submit_without_selection.1 ImageProcessor.initial .networkError rfl).1,
   (submit_without_selection.2 VideoProcessor.initial _ rfl).1⟩

/-! ## Numbers: lemmas -/

theorem roundHalfEven_nonneg (x : ℚ) (hx : 0 ≤ x) : 0 ≤ roundHalfEven x := by
  have hfl : 0 ≤ ⌊x⌋ := Int.floor_nonneg.mpr hx
  unfold roundHalfEven
  simp only
  split
  · exact hfl
  · split
    · omega
    · split
      · exact hfl
      · omega

theorem toDouble_nonneg (x : ℚ) (hx : 0 ≤ x) : 0 ≤ toDouble x := by
  unfold toDouble
  split
  · exact le_refl _
  · simp only
    have hulp : (0 : ℚ) < (2 : ℚ) ^ (max (binade x) (-1022) - 52) := by positivity
    have hq : 0 ≤ x / (2 : ℚ) ^ (max (binade x) (-1022) - 52) := div_nonneg hx hulp.le
    have hr := roundHalfEven_nonneg _ hq
    have hr' : (0 : ℚ) ≤ (roundHalfEven (x / (2 : ℚ) ^ (max (binade x) (-1022) - 52)) : ℚ) := by
      exact_mod_cast hr
    exact mul_nonneg hr' hulp.le

theorem padLeft_repr_length (f r : Nat) (h : (Nat.repr r).length ≤ f) :
    (padLeft f (Nat.repr r)).length = f := by
  unfold padLeft
  rw [String.length_append, String.length_mk, List.length_replicate]
  omega

/-- The fixed-point digits: for `0 ≤ x` and `f > 0` digits after the point, `toFixed` prints
the integer part and the `f`-digit fraction of `n / 10^f`, where `n` is the integer
nearest to `x * 10^f`. -/
theorem toFixed_nonneg (x : ℚ) (f : Nat) (hx : 0 ≤ x) (hf : f ≠ 0) :
    ∃ n : ℕ, |(n : ℚ) / 10 ^ f - x| ≤ 1 / (2 * 10 ^ f)
      ∧ toFixed x f = Nat.repr (n / 10 ^ f) ++ "." ++ padLeft f (Nat.repr (n % 10 ^ f)) := by
  have hy : (0 : ℚ) ≤ x * 10 ^ f + 1 / 2 := by positivity
  have hfl : 0 ≤ ⌊x * 10 ^ f + 1 / 2⌋ := Int.floor_nonneg.mpr hy
  refine ⟨(⌊x * 10 ^ f + 1 / 2⌋).toNat, ?_, ?_⟩
  · have hcast : (((⌊x * 10 ^ f + 1 / 2⌋).toNat : ℕ) : ℚ) = ((⌊x * 10 ^ f + 1 / 2⌋ : ℤ) : ℚ) := by
      have := Int.toNat_of_nonneg hfl
      exact_mod_cast this
    rw [hcast]
    have h1 : ((⌊x * 10 ^ f + 1 / 2⌋ : ℤ) : ℚ) ≤ x * 10 ^ f + 1 / 2 := Int.floor_le _
    have h2 : x * 10 ^ f + 1 / 2 < ((⌊x * 10 ^ f + 1 / 2⌋ : ℤ) : ℚ) + 1 := Int.lt_floor_add_one _
    have hp : (0 : ℚ) < 10 ^ f := by positivity
    have e1 : ((⌊x * 10 ^ f + 1 / 2⌋ : ℤ) : ℚ) / 10 ^ f - x
        = (((⌊x * 10 ^ f + 1 / 2⌋ : ℤ) : ℚ) - x * 10 ^ f) / 10 ^ f := by
      field_simp
      ring
    have e2 : (1 : ℚ) / (2 * 10 ^ f) = (1 / 2) / 10 ^ f := by
      field_simp
    rw [e1, e2, abs_le]
    constructor
    · rw [← neg_div]
      exact (div_le_div_iff_of_pos_right hp).mpr (by linarith)
    · exact (div_le_div_iff_of_pos_right hp).mpr (by linarith)
  · unfold toFixed
    have hnot : ¬ x < 0 := not_lt.mpr hx
    simp [hf, hnot, abs_of_nonneg hx]

/-- Known binary64 values: 0.1, 0.5 and -3, 0.873 and its product with 100. -/
theorem toDouble_samples :
    toDouble (1 / 10) = 3602879701896397 / 36028797018963968
      ∧ toDouble (1 / 2) = 1 / 2
      ∧ toDouble (-3) = -3
      ∧ toDouble (873 / 1000) = 3931642474694443 / 4503599627370496
      ∧ jsMul (toDouble (873 / 1000)) 100 = 6143191366710067 / 70368744177664 := by
  refine ⟨?_, ?_, ?_, ?_, ?_⟩ <;> decide!

/-- Known results of `toFixed`: `(1.005).toFixed(2)`, `(0.5).toFixed(0)`,
`(-0.001).toFixed(2)` and `(100).toFixed(1)`. -/
theorem toFixed_samples :
    toFixed (toDouble (1005 / 1000)) 2 = "1.00"
      ∧ toFixed (1 / 2) 0 = "1"
      ∧ toFixed (toDouble (-1 / 1000)) 2 = "-0.00"
      ∧ toFixed 100 1 = "100.0" := by
  refine ⟨?_, ?_, ?_, ?_⟩ <;> decide!

theorem repr_length_two : ∀ r, r < 100 → (Nat.repr r).length ≤ 2 := by decide!

theorem repr_length_one : ∀ r, r < 10 → (Nat.repr r).length ≤ 1 := by decide!

/-! ## Result renderer: confidence display -/

/-- C11 as stated fails at its own example: the JSON number 87.345 is held as the
binary64 value 3073178980099031 / 2^45, which lies below 87.345, and the image renderer
shows it as `87.34%`, not `87.35%`. -/
theorem image_confidence_87_345_renders_87_34 :
    toDouble (87345 / 1000) = 3073178980099031 / 35184372088832
      ∧ toDouble (87345 / 1000) < 87345 / 1000
      ∧ ImageProcessor.confidenceLine { confidence := some (toDouble (87345 / 1000)) }
          = .paragraph "87.34%" := by
  refine ⟨?_, ?_, ?_⟩ <;> decide!

/-- C11, amended. Image confidence display: for every plate with a confidence `c` on the
0-100 scale that is present and not zero, the rendered text is `c.toFixed(2)` followed by
`%`, with no rescaling: the integer part, a point and exactly two digits of `n / 100`,
where `n` is the integer nearest to `100 * c` for the binary64 value `c` that is held. -/
theorem image_confidence_display (plate : Plate) (c : ℚ) (hc : plate.confidence = some c)
    (hpos : 0 < c) (hle : c ≤ 100) :
    ImageProcessor.confidenceLine plate = .paragraph (toFixed c 2 ++ "%")
      ∧ ∃ n : ℕ, |(n : ℚ) / 100 - c| ≤ 1 / 200
          ∧ n ≤ 10000
          ∧ toFixed c 2 = Nat.repr (n / 100) ++ "." ++ padLeft 2 (Nat.repr (n % 100))
          ∧ (padLeft 2 (Nat.repr (n % 100))).length = 2 := by
  constructor
  · simp [ImageProcessor.confidenceLine, hc, hpos.ne']
  · obtain ⟨n, hn, hfix⟩ := toFixed_nonneg c 2 hpos.le (by decide)
    have h100 : ((10 : ℚ) ^ 2) = 100 := by norm_num
    rw [h100] at hn
    replace hn : |(n : ℚ) / 100 - c| ≤ 1 / 200 := le_trans hn (by norm_num)
    have hn100 : (10 : ℕ) ^ 2 = 100 := by norm_num
    rw [hn100] at hfix
    refine ⟨n, hn, ?_, hfix, ?_⟩
    · have h1 := (abs_le.mp hn).2
      have h2 : (n : ℚ) ≤ 10000 + 1 / 2 := by linarith
      by_contra hcon
      have h3 : (10001 : ℚ) ≤ (n : ℚ) := by
        have : 10001 ≤ n := by omega
        exact_mod_cast this
      linarith
    · exact padLeft_repr_length 2 (n % 100)
        (repr_length_two (n % 100) (Nat.mod_lt n (by decide)))

/-- Witness for C11, amended: the binary64 value of 87.345 and its text `87.34%`. -/
theorem image_confidence_display_witness :
    ImageProcessor.confidenceLine { confidence := some (toDouble (87345 / 1000)) }
        = .paragraph "87.34%"
      ∧ ∃ n : ℕ, |(n : ℚ) / 100 - toDouble (87345 / 1000)| ≤ 1 / 200
          ∧ n ≤ 10000
          ∧ toFixed (toDouble (87345 / 1000)) 2
              = Nat.repr (n / 100) ++ "." ++ padLeft 2 (Nat.repr (n % 100))
          ∧ (padLeft 2 (Nat.repr (n % 100))).length = 2 :=
  ⟨(image_confidence_display { confidence := some (toDouble (87345 / 1000)) }
      (toDouble (87345 / 1000)) rfl (by decide!) (by decide!)).1.trans (by decide!),
   (image_confidence_display { confidence := some (toDouble (87345 / 1000)) }
      (toDouble (87345 / 1000)) rfl (by decide!) (by decide!)).2⟩

/-- C12 as stated fails: the fraction 0.5655 is held as a binary64 value `f` with
`100 * f` nearer to 56.6 than to 56.5, but the product `f * 100` computed in binary64
lies below 56.55 and the video renderer shows `56.5%`. -/
theorem video_confidence_0_5655_renders_56_5 :
    0 < toDouble (5655 / 10000) ∧ toDouble (5655 / 10000) ≤ 1
      ∧ |(566 : ℚ) / 10 - toDouble (5655 / 10000) * 100| < 1 / 20
      ∧ jsMul (toDouble (5655 / 10000)) 100 < toDouble (5655 / 10000) * 100
      ∧ VideoProcessor.confidenceText { confidence := some (toDouble (5655 / 10000)) }
          = "56.5%" := by
  refine ⟨?_, ?_, ?_, ?_, ?_⟩ <;> decide!

/-- C12, amended. Video confidence display: for every best frame with a confidence
fraction `f` on the 0-1 scale that is present and not zero, the rendered text is
`(f * 100).toFixed(1)` followed by `%`: the integer part, a point and exactly one digit of
`n / 10`, where `n` is the integer nearest to the binary64 product `f * 100`. -/
theorem video_confidence_display (details : LicencePlateDetails) (f : ℚ)
    (hf : details.confidence = some f) (hpos : 0 < f) (_hle : f ≤ 1) :
    VideoProcessor.confidenceText details = toFixed (jsMul f 100) 1 ++ "%"
      ∧ ∃ n : ℕ, |(n : ℚ) / 10 - jsMul f 100| ≤ 1 / 20
          ∧ toFixed (jsMul f 100) 1 = Nat.repr (n / 10) ++ "." ++ padLeft 1 (Nat.repr (n % 10))
          ∧ (padLeft 1 (Nat.repr (n % 10))).length = 1 := by
  constructor
  · simp [VideoProcessor.confidenceText, hf, hpos.ne']
  · have hp : 0 ≤ jsMul f 100 := toDouble_nonneg _ (by positivity)
    obtain ⟨n, hn, hfix⟩ := toFixed_nonneg (jsMul f 100) 1 hp (by decide)
    have h10 : ((10 : ℚ) ^ 1) = 10 := by norm_num
    rw [h10] at hn
    replace hn : |(n : ℚ) / 10 - jsMul f 100| ≤ 1 / 20 := le_trans hn (by norm_num)
    have hn10 : (10 : ℕ) ^ 1 = 10 := by norm_num
    rw [hn10] at hfix
    exact ⟨n, hn, hfix, padLeft_repr_length 1 (n % 10)
      (repr_length_one (n % 10) (Nat.mod_lt n (by decide)))⟩

/-- Witness for C12, amended: the binary64 value of 0.873 and its text `87.3%`. -/
theorem video_confidence_display_witness :
    VideoProcessor.confidenceText { confidence := some (toDouble (873 / 1000)) } = "87.3%"
      ∧ ∃ n : ℕ, |(n : ℚ) / 10 - jsMul (toDouble (873 / 1000)) 100| ≤ 1 / 20
          ∧ toFixed (jsMul (toDouble (873 / 1000)) 100) 1
              = Nat.repr (n / 10) ++ "." ++ padLeft 1 (Nat.repr (n % 10))
          ∧ (padLeft 1 (Nat.repr (n % 10))).length = 1 :=
  ⟨(video_confidence_display { confidence := some (toDouble (873 / 1000)) }
      (toDouble (873 / 1000)) rfl (by decide!) (by decide!)).1.trans (by decide!),
   (video_confidence_display { confidence := some (toDouble (873 / 1000)) }
      (toDouble (873 / 1000)) rfl (by decide!) (by decide!)).2⟩

/-! ## Dashboard: backend requests -/

/-- C13. Health check classification: whatever the outcome of the health request,
`checkBackendHealth` sets backendStatus to `online` if and only if a response arrived
with an ok (2xx) status, it sets `offline` for every other outcome (a non-2xx status or a
network failure), and the promise it returns never rejects. -/
theorem health_check_classification (o : HealthOutcome) (s : DashboardState) :
    ((Dashboard.checkBackendHealthSettle o s).state.backendStatus = "online" ↔ o.ok = true)
      ∧ (Dashboard.checkBackendHealthSettle o s).state.backendStatus
          = (if o.ok then "online" else "offline")
      ∧ (Dashboard.checkBackendHealthSettle o s).rejected = false := by
  cases o with
  | networkError =>
    simp [Dashboard.checkBackendHealthSettle, HealthOutcome.ok]
  | response status =>
    by_cases h : responseOk status = true
    · simp [Dashboard.checkBackendHealthSettle, HealthOutcome.ok, h]
    · simp [Dashboard.checkBackendHealthSettle, HealthOutcome.ok, h]

/-- Rendering does not throw for the state on mount nor for the two fallbacks. -/
theorem render_ok_samples :
    Dashboard.renderThrows Dashboard.initial = false
      ∧ Dashboard.renderThrows
          { stats := .object Dashboard.fallbackStats,
            recentDetections := .array Dashboard.fallbackDetections } = false := by
  constructor <;> decide

/-- The stats chain falls back on a network failure and on an unparsable body, and never
rejects. -/
theorem stats_fallback_without_body (o : FetchOutcome StatsData) (s : DashboardState)
    (h : o = .networkError ∨ ∃ status, o = .response status none) :
    (Dashboard.statsSettle o s).state.stats = .object Dashboard.fallbackStats
      ∧ (Dashboard.statsSettle o s).rejected = false := by
  rcases h with h | ⟨status, h⟩ <;> subst h <;> exact ⟨rfl, rfl⟩

/-- The stats chain stores every parsed body, whatever the status. -/
theorem stats_stores_parsed_body (status : Nat) (data : JsonBody StatsData)
    (s : DashboardState) :
    (Dashboard.statsSettle (.response status (some data)) s).state.stats = data
      ∧ (Dashboard.statsSettle (.response status (some data)) s).rejected = false :=
  ⟨rfl, rfl⟩

/-- C14 at the failing input: the stats request is answered with status 404 and a JSON
object that has none of the stats fields (such as the body of an error response). This
is a non-2xx outcome, yet the stats become that object, not the fallback snapshot, and
the KPI cards then throw while rendering. -/
theorem stats_non2xx_json_body_is_stored :
    (FetchOutcome.response 404 (some (JsonBody.object ({} : StatsData)))).parsed = none
      ∧ (Dashboard.statsSettle (.response 404 (some (.object {}))) Dashboard.initial).state.stats
          = .object {}
      ∧ (Dashboard.statsSettle (.response 404 (some (.object {}))) Dashboard.initial).state.stats
          ≠ .object Dashboard.fallbackStats
      ∧ Dashboard.renderThrows
          (Dashboard.statsSettle (.response 404 (some (.object {}))) Dashboard.initial).state
          = true := by
  refine ⟨?_, ?_, ?_, ?_⟩ <;> decide

/-- The recent-detections chain falls back on a network failure and on an unparsable
body, and stores a parsed array in its original order. -/
theorem recent_fallback_without_body (s : DashboardState) :
    (Dashboard.recentSettle .networkError s).state.recentDetections
        = .array Dashboard.fallbackDetections
      ∧ (∀ status, (Dashboard.recentSettle (.response status none) s).state.recentDetections
          = .array Dashboard.fallbackDetections)
      ∧ (∀ status rows,
          (Dashboard.recentSettle (.response status (some (.array rows))) s).state.recentDetections
            = .array rows)
      ∧ Dashboard.fallbackDetections.map (fun row => row.plate)
          = [.str "ABC123", .str "XYZ789", .str "DEF456", .str "GHI789", .str "JKL012"] :=
  ⟨rfl, fun _ => rfl, fun _ _ => rfl, rfl⟩

/-- C15 at the failing input: the recent-detections request is answered with status 404
and a JSON object (such as the body of an error response). This is a non-2xx outcome,
yet the stored value becomes that object, not the fallback rows, and the table then
throws while rendering. -/
theorem recent_non2xx_json_body_is_stored :
    responseOk 404 = false
      ∧ (Dashboard.recentSettle (.response 404 (some .notArray)) Dashboard.initial).state.recentDetections
          = .notArray
      ∧ (Dashboard.recentSettle (.response 404 (some .notArray)) Dashboard.initial).state.recentDetections
          ≠ .array Dashboard.fallbackDetections
      ∧ Dashboard.renderThrows
          (Dashboard.recentSettle (.response 404 (some .notArray)) Dashboard.initial).state
          = true := by
  refine ⟨?_, ?_, ?_, ?_⟩ <;> decide

/-! ## Upload controllers: requests and notifications -/

/-- Every run of `processImage` with a file selected makes one request and shows one
notification: the error one when no body was parsed, the success one when an object was. -/
theorem image_one_request_one_notification (o : FetchOutcome ImageData) (s : ImageState)
    (f : File) (hf : s.selectedFile = some f) :
    requestCount (ImageProcessor.processImage o s).2 = 1
      ∧ (notifications (ImageProcessor.processImage o s).2).length = 1
      ∧ (o.parsed = none → notifications (ImageProcessor.processImage o s).2
          = [.toastError "Failed to process image. Make sure the backend is running."])
      ∧ (∀ d, o.parsed = some (.object d) → notifications (ImageProcessor.processImage o s).2
          = [.toastSuccess "Image processed successfully"]) := by
  simp only [ImageProcessor.processImage, hf, ImageProcessor.processImageBegin]
  cases hp : o.parsed with
  | none =>
    rw [image_settle_of_not_parsed o _ hp]
    simp [ImageProcessor.failed, requestCount, notifications, Effect.isFetch, Effect.isToast]
  | some data =>
    cases data with
    | null =>
      rw [image_settle_null o _ hp]
      simp [ImageProcessor.failed, requestCount, notifications, Effect.isFetch, Effect.isToast]
    | object d =>
      rw [image_settle_object o _ d hp]
      simp [requestCount, notifications, Effect.isFetch, Effect.isToast]

/-- Every run of `processVideo` with a file selected makes one request and shows one
notification: the error one when no body was parsed, the success one otherwise. -/
theorem video_one_request_one_notification (o : FetchOutcome VideoData) (s : VideoState)
    (f : File) (hf : s.selectedFile = some f) :
    requestCount (VideoProcessor.processVideo o s).2 = 1
      ∧ (notifications (VideoProcessor.processVideo o s).2).length = 1
      ∧ (o.parsed = none → notifications (VideoProcessor.processVideo o s).2
          = [.toastError "Failed to process video. Make sure the backend is running."])
      ∧ (∀ data, o.parsed = some data → notifications (VideoProcessor.processVideo o s).2
          = [.toastSuccess "Video processed successfully"]) := by
  simp only [VideoProcessor.processVideo, hf, VideoProcessor.processVideoBegin]
  cases hp : o.parsed with
  | none =>
    rw [video_settle_of_not_parsed o _ hp]
    simp [VideoProcessor.failed, requestCount, notifications, Effect.isFetch, Effect.isToast]
  | some data =>
    rw [video_settle_parsed o _ data hp]
    simp [requestCount, notifications, Effect.isFetch, Effect.isToast]

/-- C16 at the failing input: a response with status 200 and the body `null`. Both
controllers make one request and show one notification, and both have stored the body
(`results` is `null` afterwards, the earlier result of the image controller is gone);
`processVideo` shows the success notification, `processImage` the error notification. -/
theorem null_body_notification_differs :
    requestCount (ImageProcessor.processImage (.response 200 (some .null))
        { selectedFile := some sampleFile, results := .object sampleImageData,
          resultId := .str "abc123" }).2 = 1
      ∧ notifications (ImageProcessor.processImage (.response 200 (some .null))
          { selectedFile := some sampleFile, results := .object sampleImageData,
            resultId := .str "abc123" }).2
          = [.toastError "Failed to process image. Make sure the backend is running."]
      ∧ (ImageProcessor.processImage (.response 200 (some .null))
          { selectedFile := some sampleFile, results := .object sampleImageData,
            resultId := .str "abc123" }).1.results = .null
      ∧ requestCount (VideoProcessor.processVideo (.response 200 (some .null))
          { selectedFile := some sampleFile, results := .object sampleVideoData }).2 = 1
      ∧ notifications (VideoProcessor.processVideo (.response 200 (some .null))
          { selectedFile := some sampleFile, results := .object sampleVideoData }).2
          = [.toastSuccess "Video processed successfully"]
      ∧ (VideoProcessor.processVideo (.response 200 (some .null))
          { selectedFile := some sampleFile, results := .object sampleVideoData }).1.results
          = .null := by
  refine ⟨?_, ?_, ?_, ?_, ?_, ?_⟩ <;> decide

/-! ## Dashboard: health poller -/

theorem ticks_succ (n : Nat) (sys : Dashboard.System) :
    Dashboard.ticks (n + 1) sys = Dashboard.tick (Dashboard.ticks n sys) := by
  induction n generalizing sys with
  | zero => rfl
  | succ k ih =>
    show Dashboard.ticks (k + 1) (Dashboard.tick sys) = _
    rw [ih (Dashboard.tick sys)]
    rfl

theorem healthChecks_append_check (sys : Dashboard.System) (now : Nat)
    (interval : Option Dashboard.Timer) :
    Dashboard.healthChecks
        { sys with now := now, interval := interval,
                   log := sys.log ++ Dashboard.checkBackendHealthBegin }
      = Dashboard.healthChecks sys + 1 := by
  simp [Dashboard.healthChecks, Dashboard.checkBackendHealthBegin, List.filter_append]

theorem ticks_after_mount (n : Nat) :
    (Dashboard.ticks n (Dashboard.mount {})).now = n
      ∧ (Dashboard.ticks n (Dashboard.mount {})).interval
          = some { id := 1, period := 30000, next := 30000 * (n / 30000 + 1) }
      ∧ Dashboard.healthChecks (Dashboard.ticks n (Dashboard.mount {})) = 1 + n / 30000 := by
  induction n with
  | zero => exact ⟨rfl, rfl, by decide⟩
  | succ k ih =>
    obtain ⟨hnow, hint, hcount⟩ := ih
    rw [ticks_succ]
    generalize Dashboard.ticks k (Dashboard.mount {}) = sys at hnow hint hcount
    unfold Dashboard.tick
    rw [hint]
    simp only [hnow]
    by_cases hfire : k + 1 = 30000 * (k / 30000 + 1)
    · rw [if_pos hfire]
      refine ⟨rfl, ?_, ?_⟩
      · simp only [Option.some.injEq, Dashboard.Timer.mk.injEq, true_and]
        omega
      · rw [healthChecks_append_check, hcount]
        omega
    · rw [if_neg hfire]
      refine ⟨rfl, ?_, ?_⟩
      · show some _ = some _
        simp only [Option.some.injEq, Dashboard.Timer.mk.injEq, true_and]
        omega
      · show Dashboard.healthChecks sys = _
        rw [hcount]
        omega

theorem ticks_without_interval (m : Nat) (sys : Dashboard.System) (h : sys.interval = none) :
    (Dashboard.ticks m sys).log = sys.log ∧ (Dashboard.ticks m sys).interval = none := by
  induction m generalizing sys with
  | zero => exact ⟨rfl, h⟩
  | succ k ih =>
    have htick : (Dashboard.tick sys).log = sys.log ∧ (Dashboard.tick sys).interval = none := by
      unfold Dashboard.tick
      rw [h]
      exact ⟨rfl, rfl⟩
    have := ih (Dashboard.tick sys) htick.2
    exact ⟨this.1.trans htick.1, this.2⟩

theorem unmount_after_mount (n : Nat) :
    (Dashboard.unmount (Dashboard.ticks n (Dashboard.mount {}))).interval = none
      ∧ (Dashboard.unmount (Dashboard.ticks n (Dashboard.mount {}))).log
          = (Dashboard.ticks n (Dashboard.mount {})).log ++ [.clearInterval 1] := by
  have h := (ticks_after_mount n).2.1
  unfold Dashboard.unmount
  rw [h]
  exact ⟨rfl, rfl⟩

/-- C17. Health poller schedule: mounting the dashboard starts exactly one health check
at once and registers an interval with a period of 30000 ms, whose callback starts one
more check every 30000 ms while the view is mounted; unmounting clears that interval,
and however much time passes afterwards no further check is started. -/
theorem health_poller_schedule :
    Dashboard.healthChecks (Dashboard.mount {}) = 1
      ∧ (Dashboard.mount {}).interval = some { id := 1, period := 30000, next := 30000 }
      ∧ (Dashboard.mount {}).log
          = [.fetchGet "http://localhost:8000/", .setInterval 1 30000,
             .fetchGet "http://localhost:8000/api/v1/stats",
             .fetchGet "http://localhost:8000/api/v1/recent-detections"]
      ∧ (∀ n, Dashboard.healthChecks (Dashboard.ticks n (Dashboard.mount {})) = 1 + n / 30000)
      ∧ (∀ n, (Dashboard.unmount (Dashboard.ticks n (Dashboard.mount {}))).interval = none
          ∧ (Dashboard.unmount (Dashboard.ticks n (Dashboard.mount {}))).log
              = (Dashboard.ticks n (Dashboard.mount {})).log ++ [.clearInterval 1])
      ∧ ∀ n m, Dashboard.healthChecks
            (Dashboard.ticks m (Dashboard.unmount (Dashboard.ticks n (Dashboard.mount {}))))
          = Dashboard.healthChecks (Dashboard.ticks n (Dashboard.mount {})) := by
  refine ⟨by decide, rfl, rfl, fun n => (ticks_after_mount n).2.2, unmount_after_mount, ?_⟩
  intro n m
  have hun := unmount_after_mount n
  have hlog := (ticks_without_interval m _ hun.1).1
  simp [Dashboard.healthChecks, hlog, hun.2, List.filter_append]

/-! ## Upload controllers: preview URLs -/

theorem liveUrls_append_create (log : List Effect) (file : File) (url : String) :
    liveUrls (log ++ [.createObjectURL file url]) = liveUrls log ++ [url] := by
  simp [liveUrls, List.foldl_append]

theorem liveUrls_append_other (log es : List Effect)
    (h : ∀ e ∈ es, (∀ file url, e ≠ .createObjectURL file url) ∧ ∀ url, e ≠ .revokeObjectURL url) :
    liveUrls (log ++ es) = liveUrls log := by
  induction es generalizing log with
  | nil => simp
  | cons e es ih =>
    have he := h e (List.mem_cons_self _ _)
    have hrest : ∀ e' ∈ es, (∀ file url, e' ≠ .createObjectURL file url)
        ∧ ∀ url, e' ≠ .revokeObjectURL url :=
      fun e' he' => h e' (List.mem_cons_of_mem _ he')
    have hsplit : log ++ e :: es = (log ++ [e]) ++ es := by simp
    rw [hsplit, ih (log ++ [e]) hrest]
    cases e with
    | createObjectURL file url => exact absurd rfl (he.1 file url)
    | revokeObjectURL url => exact absurd rfl (he.2 url)
    | fetchPost _ _ => simp [liveUrls, List.foldl_append]
    | toastError _ => simp [liveUrls, List.foldl_append]
    | toastSuccess _ => simp [liveUrls, List.foldl_append]
    | consoleError _ => simp [liveUrls, List.foldl_append]
    | fetchGet _ => simp [liveUrls, List.foldl_append]
    | fetchPostJson _ _ => simp [liveUrls, List.foldl_append]
    | setInterval _ _ => simp [liveUrls, List.foldl_append]
    | clearInterval _ => simp [liveUrls, List.foldl_append]

theorem image_click_effects (s : ImageState) :
    ∀ e ∈ (ImageProcessor.clickProcess s).2,
      (∀ file url, e ≠ .createObjectURL file url) ∧ ∀ url, e ≠ .revokeObjectURL url := by
  intro e he
  unfold ImageProcessor.clickProcess ImageProcessor.processImageBegin at he
  split at he
  · simp at he
  · split at he <;> simp at he <;> subst he <;> simp

theorem image_settle_effects (o : FetchOutcome ImageData) (s : ImageState) :
    ∀ e ∈ (ImageProcessor.processImageSettle o s).2,
      (∀ file url, e ≠ .createObjectURL file url) ∧ ∀ url, e ≠ .revokeObjectURL url := by
  intro e he
  cases hp : o.parsed with
  | none =>
    rw [image_settle_of_not_parsed o s hp] at he
    simp [ImageProcessor.failed] at he
    rcases he with he | he <;> subst he <;> simp
  | some data =>
    cases data with
    | null =>
      rw [image_settle_null o s hp] at he
      simp [ImageProcessor.failed] at he
      rcases he with he | he <;> subst he <;> simp
    | object d =>
      rw [image_settle_object o s d hp] at he
      simp at he
      subst he
      simp

theorem image_step_live (sys : ImageProcessor.System) (e : ImageProcessor.Event) :
    liveUrls (ImageProcessor.step sys e).log
      = liveUrls sys.log ++ ImageProcessor.selectedUrls [e] := by
  cases e with
  | select file url =>
    simp [ImageProcessor.step, ImageProcessor.handleFile, ImageProcessor.selectedUrls,
      liveUrls_append_create]
  | click =>
    simp only [ImageProcessor.step, ImageProcessor.selectedUrls, List.append_nil]
    exact liveUrls_append_other _ _ (image_click_effects sys.st)
  | settle o =>
    simp only [ImageProcessor.step, ImageProcessor.selectedUrls, List.append_nil]
    split
    · rfl
    · exact liveUrls_append_other _ _ (image_settle_effects o sys.st)

theorem image_selectedUrls_cons (e : ImageProcessor.Event) (evs : List ImageProcessor.Event) :
    ImageProcessor.selectedUrls (e :: evs)
      = ImageProcessor.selectedUrls [e] ++ ImageProcessor.selectedUrls evs := by
  cases e <;> simp [ImageProcessor.selectedUrls]

theorem image_foldl_live (evs : List ImageProcessor.Event) (sys : ImageProcessor.System) :
    liveUrls (evs.foldl ImageProcessor.step sys).log
      = liveUrls sys.log ++ ImageProcessor.selectedUrls evs := by
  induction evs generalizing sys with
  | nil => simp [ImageProcessor.selectedUrls]
  | cons e evs ih =>
    rw [List.foldl_cons, ih, image_step_live, List.append_assoc, ← image_selectedUrls_cons]

theorem video_click_effects (s : VideoState) :
    ∀ e ∈ (VideoProcessor.clickProcess s).2,
      (∀ file url, e ≠ .createObjectURL file url) ∧ ∀ url, e ≠ .revokeObjectURL url := by
  intro e he
  unfold VideoProcessor.clickProcess VideoProcessor.processVideoBegin at he
  split at he
  · simp at he
  · split at he <;> simp at he <;> subst he <;> simp

theorem video_settle_effects (o : FetchOutcome VideoData) (s : VideoState) :
    ∀ e ∈ (VideoProcessor.processVideoSettle o s).2,
      (∀ file url, e ≠ .createObjectURL file url) ∧ ∀ url, e ≠ .revokeObjectURL url := by
  intro e he
  cases hp : o.parsed with
  | none =>
    rw [video_settle_of_not_parsed o s hp] at he
    simp [VideoProcessor.failed] at he
    rcases he with he | he <;> subst he <;> simp
  | some data =>
    rw [video_settle_parsed o s data hp] at he
    simp at he
    subst he
    simp

theorem video_step_live (sys : VideoProcessor.System) (e : VideoProcessor.Event) :
    liveUrls (VideoProcessor.step sys e).log
      = liveUrls sys.log ++ VideoProcessor.selectedUrls [e] := by
  cases e with
  | select file url =>
    simp [VideoProcessor.step, VideoProcessor.handleFile, VideoProcessor.selectedUrls,
      liveUrls_append_create]
  | click =>
    simp only [VideoProcessor.step, VideoProcessor.selectedUrls, List.append_nil]
    exact liveUrls_append_other _ _ (video_click_effects sys.st)
  | settle o =>
    simp only [VideoProcessor.step, VideoProcessor.selectedUrls, List.append_nil]
    split
    · rfl
    · exact liveUrls_append_other _ _ (video_settle_effects o sys.st)

theorem video_selectedUrls_cons (e : VideoProcessor.Event) (evs : List VideoProcessor.Event) :
    VideoProcessor.selectedUrls (e :: evs)
      = VideoProcessor.selectedUrls [e] ++ VideoProcessor.selectedUrls evs := by
  cases e <;> simp [VideoProcessor.selectedUrls]

theorem video_foldl_live (evs : List VideoProcessor.Event) (sys : VideoProcessor.System) :
    liveUrls (evs.foldl VideoProcessor.step sys).log
      = liveUrls sys.log ++ VideoProcessor.selectedUrls evs := by
  induction evs generalizing sys with
  | nil => simp [VideoProcessor.selectedUrls]
  | cons e evs ih =>
    rw [List.foldl_cons, ih, video_step_live, List.append_assoc, ← video_selectedUrls_cons]

/-- C18 as stated fails: after two selections on one controller both preview URLs are
live; the first one was not revoked when the second file was selected. -/
theorem superseded_preview_url_stays_live :
    liveUrls (ImageProcessor.run
        [.select sampleFile "blob:1", .select sampleFile "blob:2"]).log = ["blob:1", "blob:2"]
      ∧ (ImageProcessor.run
          [.select sampleFile "blob:1", .select sampleFile "blob:2"]).st.previewUrl
          = some "blob:2"
      ∧ (ImageProcessor.run [.select sampleFile "blob:1", .select sampleFile "blob:2"]).log
          = [.createObjectURL sampleFile "blob:1", .createObjectURL sampleFile "blob:2"]
      ∧ liveUrls (VideoProcessor.run
          [.select sampleFile "blob:1", .select sampleFile "blob:2"]).log
          = ["blob:1", "blob:2"] := by
  refine ⟨?_, ?_, ?_, ?_⟩ <;> decide

/-- C18, amended. Preview resources are never released: after every sequence of
selections, clicks and settlements on one controller, the live preview URLs are all the
URLs created for the selections so far, one per selection, in order. -/
theorem preview_urls_accumulate :
    (∀ evs, liveUrls (ImageProcessor.run evs).log = ImageProcessor.selectedUrls evs)
      ∧ ∀ evs, liveUrls (VideoProcessor.run evs).log = VideoProcessor.selectedUrls evs := by
  constructor
  · intro evs
    have h := image_foldl_live evs {}
    simpa [ImageProcessor.run, liveUrls] using h
  · intro evs
    have h := video_foldl_live evs {}
    simpa [VideoProcessor.run, liveUrls] using h

/-! ## Result renderer: order of the plates -/

/-- C19. Result order and count are preserved by the image renderer: for a plate list
with n ≥ 1 entries the renderer produces exactly n cards, the k-th one (0-based) built
from the k-th plate, titled `Plate k+1`, with key k and with the image `src` computed for
index k; for an empty or absent plate list it produces the single message
`No license plates detected` and no cards. -/
theorem image_renderer_preserves_order (resultId : JsVal) (d : ImageData) :
    (∀ plates : List Plate, d.results = some plates → plates ≠ [] →
        ∃ cs, ImageProcessor.renderPlates resultId d = .cards cs
          ∧ cs.length = plates.length
          ∧ ∀ (k : Nat) (plate : Plate), plates[k]? = some plate →
              cs[k]? = some (ImageProcessor.renderPlate resultId plate k)
                ∧ (ImageProcessor.renderPlate resultId plate k).title
                    = "Plate " ++ Nat.repr (k + 1)
                ∧ (ImageProcessor.renderPlate resultId plate k).key = k
                ∧ (ImageProcessor.renderPlate resultId plate k).ocrText
                    = (plate.plate_text.orElse (.str "N/A")).reactText
                ∧ (ImageProcessor.renderPlate resultId plate k).cropped.src?
                    = ImageProcessor.croppedUrl resultId k)
      ∧ ((d.results = none ∨ d.results = some []) →
          ImageProcessor.renderPlates resultId d = .noPlates "No license plates detected") := by
  constructor
  · intro plates hd hne
    have hpos : plates.length > 0 := List.length_pos.mpr hne
    refine ⟨mapIndexed (ImageProcessor.renderPlate resultId) 0 plates, ?_,
      mapIndexed_length _ _ _, ?_⟩
    · simp [ImageProcessor.renderPlates, hd, hpos]
    · intro k plate hk
      refine ⟨?_, rfl, rfl, rfl, ?_⟩
      · rw [mapIndexed_getElem?, hk]
        simp
      · unfold ImageProcessor.renderPlate
        cases hurl : ImageProcessor.croppedUrl resultId k with
        | none => rfl
        | some url => rfl
  · intro h
    rcases h with h | h <;> simp [ImageProcessor.renderPlates, h]

/-- Witness for C19: a result with two plates, and a result with an empty list. -/
theorem image_renderer_preserves_order_witness :
    (∃ cs, ImageProcessor.renderPlates (.str "abc123")
          { results := some [{ plate_text := .str "BA2PA1234" }, { plate_text := .str "BA3KHA5678" }] }
          = .cards cs
        ∧ cs.length = 2
        ∧ cs.map (fun c => (c.key, c.title, c.ocrText, c.cropped.src?))
            = [(0, "Plate 1", "BA2PA1234",
                some "http://localhost:8000/results/abc123/cropped_plate_0.jpg"),
               (1, "Plate 2", "BA3KHA5678",
                some "http://localhost:8000/results/abc123/cropped_plate_1.jpg")])
      ∧ ImageProcessor.renderPlates (.str "abc123") { results := some [] }
          = .noPlates "No license plates detected" :=
  ⟨by
    obtain ⟨cs, hcs, hlen, _⟩ :=
      (image_renderer_preserves_order (.str "abc123")
        { results := some [{ plate_text := .str "BA2PA1234" },
                           { plate_text := .str "BA3KHA5678" }] }).1
        [{ plate_text := .str "BA2PA1234" }, { plate_text := .str "BA3KHA5678" }] rfl (by decide)
    refine ⟨cs, hcs, hlen, ?_⟩
    have hval : ImageProcessor.renderPlates (.str "abc123")
        { results := some [{ plate_text := .str "BA2PA1234" },
                           { plate_text := .str "BA3KHA5678" }] }
        = .cards (mapIndexed (ImageProcessor.renderPlate (.str "abc123")) 0
            [{ plate_text := .str "BA2PA1234" }, { plate_text := .str "BA3KHA5678" }]) := by
      decide
    rw [hval] at hcs
    injection hcs with hcs
    subst hcs
    decide,
   (image_renderer_preserves_order (.str "abc123") { results := some [] }).2 (Or.inr rfl)⟩

/-! ## Dashboard: OCR mode -/

/-- C20. OCR mode is the echoed mode: when the request of `switchMode` completes with a
body that parses to an object, the stored mode is that object's `ocr_mode`, whatever mode
was requested and whatever mode was stored; when the request of the mount effect does,
the stored mode is the object's `ocr_mode` if that is truthy and `local` otherwise, so
`local` when the field is absent or the empty string. -/
theorem ocr_mode_is_echoed (status : Nat) (d : OcrData) (s : OcrState) :
    (OCRModeToggle.switchModeSettle (.response status (some (.object d))) s).state.ocrMode
        = d.ocr_mode
      ∧ (OCRModeToggle.switchModeSettle (.response status (some (.object d))) s).rejected = false
      ∧ (OCRModeToggle.mountSettle (.response status (some (.object d))) s).state.ocrMode
          = (if d.ocr_mode.truthy then d.ocr_mode else .str "local")
      ∧ (OCRModeToggle.mountSettle (.response status (some (.object { ocr_mode := .undefined })))
            s).state.ocrMode = .str "local"
      ∧ (OCRModeToggle.mountSettle (.response status (some (.object { ocr_mode := .str "" })))
            s).state.ocrMode = .str "local" :=
  ⟨rfl, rfl, rfl, rfl, rfl⟩

/-! ## Upload controllers: the same lifecycle -/

theorem settle_dropResultId (g : ImageData → VideoData) (o : FetchOutcome ImageData)
    (s : ImageState) :
    (VideoProcessor.processVideoSettle (o.map g) (dropResultId g s)).1
      = dropResultId g (ImageProcessor.processImageSettle o s).1 := by
  cases o with
  | networkError => rfl
  | response status body =>
    by_cases hok : responseOk status = true
    · cases body with
      | none =>
        simp [FetchOutcome.map, VideoProcessor.processVideoSettle,
          ImageProcessor.processImageSettle, hok, VideoProcessor.failed, ImageProcessor.failed,
          dropResultId]
      | some data =>
        cases data with
        | null =>
          simp [FetchOutcome.map, JsonBody.map, VideoProcessor.processVideoSettle,
            ImageProcessor.processImageSettle, hok, ImageProcessor.failed, dropResultId]
        | object d =>
          simp [FetchOutcome.map, JsonBody.map, VideoProcessor.processVideoSettle,
            ImageProcessor.processImageSettle, hok, dropResultId]
    · simp [FetchOutcome.map, VideoProcessor.processVideoSettle,
        ImageProcessor.processImageSettle, hok, VideoProcessor.failed, ImageProcessor.failed,
        dropResultId]

theorem click_dropResultId (g : ImageData → VideoData) (s : ImageState) :
    (VideoProcessor.clickProcess (dropResultId g s)).1
        = dropResultId g (ImageProcessor.clickProcess s).1
      ∧ requestCount (VideoProcessor.clickProcess (dropResultId g s)).2
        = requestCount (ImageProcessor.clickProcess s).2 := by
  cases hf : s.selectedFile with
  | none =>
    simp [VideoProcessor.clickProcess, ImageProcessor.clickProcess,
      VideoProcessor.processDisabled, ImageProcessor.processDisabled, dropResultId, hf]
  | some file =>
    cases hp : s.isProcessing with
    | true =>
      simp [VideoProcessor.clickProcess, ImageProcessor.clickProcess,
        VideoProcessor.processDisabled, ImageProcessor.processDisabled, dropResultId, hf, hp]
    | false =>
      simp [VideoProcessor.clickProcess, ImageProcessor.clickProcess,
        VideoProcessor.processDisabled, ImageProcessor.processDisabled, dropResultId, hf, hp,
        VideoProcessor.processVideoBegin, ImageProcessor.processImageBegin, requestCount,
        Effect.isFetch]

theorem step_dropResultId (g : ImageData → VideoData) (si : ImageProcessor.System)
    (sv : VideoProcessor.System) (e : ImageProcessor.Event)
    (hst : sv.st = dropResultId g si.st) (hin : sv.inflight = si.inflight) :
    (VideoProcessor.step sv (toVideoEvent g e)).st
        = dropResultId g (ImageProcessor.step si e).st
      ∧ (VideoProcessor.step sv (toVideoEvent g e)).inflight
        = (ImageProcessor.step si e).inflight := by
  cases e with
  | select file url =>
    simp [toVideoEvent, VideoProcessor.step, ImageProcessor.step, VideoProcessor.handleFile,
      ImageProcessor.handleFile, hst, hin, dropResultId, JsonBody.map]
  | click =>
    have h := click_dropResultId g si.st
    simp only [toVideoEvent, VideoProcessor.step, ImageProcessor.step, hst, hin]
    exact ⟨h.1, by rw [h.2]⟩
  | settle o =>
    simp only [toVideoEvent, VideoProcessor.step, ImageProcessor.step, hin]
    by_cases h0 : si.inflight = 0
    · simp [h0, hst, hin]
    · simp only [h0, if_false, hst]
      exact ⟨settle_dropResultId g o si.st, trivial⟩

theorem foldl_dropResultId (g : ImageData → VideoData) (evs : List ImageProcessor.Event)
    (si : ImageProcessor.System) (sv : VideoProcessor.System)
    (hst : sv.st = dropResultId g si.st) (hin : sv.inflight = si.inflight) :
    ((evs.map (toVideoEvent g)).foldl VideoProcessor.step sv).st
        = dropResultId g (evs.foldl ImageProcessor.step si).st
      ∧ ((evs.map (toVideoEvent g)).foldl VideoProcessor.step sv).inflight
        = (evs.foldl ImageProcessor.step si).inflight := by
  induction evs generalizing si sv with
  | nil => exact ⟨hst, hin⟩
  | cons e evs ih =>
    have h := step_dropResultId g si sv e hst hin
    exact ih _ _ h.1 h.2

/-- C21. Image and video controllers have the same lifecycle: for every sequence of file
selections, clicks on Process and settlements, when the video controller sees the same
events with the same outcomes (the same kind of failure, or a parsed body whose payload
object is the video payload `g d` in place of the image payload `d`), its state is the
state of the image controller with resultId dropped: the same selectedFile, previewUrl
and isProcessing, and the corresponding stored result; the requests in flight agree too. -/
theorem image_video_same_lifecycle (g : ImageData → VideoData)
    (evs : List ImageProcessor.Event) :
    (VideoProcessor.run (evs.map (toVideoEvent g))).st
        = dropResultId g (ImageProcessor.run evs).st
      ∧ (VideoProcessor.run (evs.map (toVideoEvent g))).st.selectedFile
        = (ImageProcessor.run evs).st.selectedFile
      ∧ (VideoProcessor.run (evs.map (toVideoEvent g))).st.previewUrl
        = (ImageProcessor.run evs).st.previewUrl
      ∧ (VideoProcessor.run (evs.map (toVideoEvent g))).st.isProcessing
        = (ImageProcessor.run evs).st.isProcessing
      ∧ (VideoProcessor.run (evs.map (toVideoEvent g))).st.results
        = (ImageProcessor.run evs).st.results.map g
      ∧ (VideoProcessor.run (evs.map (toVideoEvent g))).inflight
        = (ImageProcessor.run evs).inflight := by
  have h := foldl_dropResultId g evs {} {} rfl rfl
  have hst : (VideoProcessor.run (evs.map (toVideoEvent g))).st
      = dropResultId g (ImageProcessor.run evs).st := h.1
  refine ⟨hst, ?_, ?_, ?_, ?_, h.2⟩ <;> rw [hst] <;> rfl

/-! ## Dashboard: ownership of backendStatus -/

theorem dashboard_step_keeps_status (sys : Dashboard.System) (e : Dashboard.Event)
    (h : ∀ o, e ≠ .healthSettle o) :
    (Dashboard.step sys e).st.backendStatus = sys.st.backendStatus := by
  cases e with
  | mount => rfl
  | unmount =>
    simp only [Dashboard.step, Dashboard.unmount]
    split <;> rfl
  | tick =>
    simp only [Dashboard.step, Dashboard.tick]
    split
    · split <;> rfl
    · rfl
  | clickRefresh =>
    simp only [Dashboard.step]
    split <;> rfl
  | healthSettle o => exact absurd rfl (h o)
  | statsSettle o =>
    cases o with
    | networkError => rfl
    | response status body => cases body <;> rfl
  | recentSettle o =>
    cases o with
    | networkError => rfl
    | response status body => cases body <;> rfl

theorem app_step_keeps_status (app : App) (e : AppEvent) (h : e.isHealthSettle = false) :
    (app.step e).dashboard.st.backendStatus = app.dashboard.st.backendStatus := by
  cases e with
  | dashboard e =>
    apply dashboard_step_keeps_status
    intro o ho
    subst ho
    simp [AppEvent.isHealthSettle] at h
  | ocr e => cases e <;> rfl
  | image e => rfl
  | video e => rfl

theorem app_foldl_keeps_status (evs : List AppEvent) (app : App)
    (h : ∀ e ∈ evs, e.isHealthSettle = false) :
    (evs.foldl App.step app).dashboard.st.backendStatus = app.dashboard.st.backendStatus := by
  induction evs generalizing app with
  | nil => rfl
  | cons e evs ih =>
    rw [List.foldl_cons, ih (app.step e) (fun e' he' => h e' (List.mem_cons_of_mem _ he'))]
    exact app_step_keeps_status app e (h e (List.mem_cons_self _ _))

/-- C22. BackendStatus ownership: backendStatus starts as `checking`; no event of the
upload controllers (a selection, a click on Process, a settlement with any outcome)
changes it, nor does any other event that is not the settlement of a health check; a
settled health check writes it; so as long as no health check has settled it is still
`checking`. -/
theorem backendStatus_ownership :
    Dashboard.initial.backendStatus = "checking"
      ∧ (∀ (app : App) (e : ImageProcessor.Event),
          (app.step (.image e)).dashboard.st.backendStatus = app.dashboard.st.backendStatus)
      ∧ (∀ (app : App) (e : VideoProcessor.Event),
          (app.step (.video e)).dashboard.st.backendStatus = app.dashboard.st.backendStatus)
      ∧ (∀ (app : App) (e : AppEvent), e.isHealthSettle = false →
          (app.step e).dashboard.st.backendStatus = app.dashboard.st.backendStatus)
      ∧ (∀ (app : App) (o : HealthOutcome),
          (app.step (.dashboard (.healthSettle o))).dashboard.st.backendStatus
            = (if o.ok then "online" else "offline"))
      ∧ ∀ evs : List AppEvent, (∀ e ∈ evs, e.isHealthSettle = false) →
          (App.run evs).dashboard.st.backendStatus = "checking" := by
  refine ⟨rfl, fun _ _ => rfl, fun _ _ => rfl, app_step_keeps_status, ?_, ?_⟩
  · intro app o
    cases o with
    | networkError => rfl
    | response status =>
      by_cases hok : responseOk status = true
      · simp [App.step, Dashboard.step, Dashboard.checkBackendHealthSettle, HealthOutcome.ok, hok]
      · simp [App.step, Dashboard.step, Dashboard.checkBackendHealthSettle, HealthOutcome.ok, hok]
  · intro evs h
    exact app_foldl_keeps_status evs {} h

/-- Witness for C22: a mounted dashboard, an image selected, submitted and answered, a
video submission that fails; then a health check settles with status 200. -/
theorem backendStatus_ownership_witness :
    (App.run [.dashboard .mount, .image (.select sampleFile "blob:1"), .image .click,
        .image (.settle (.response 200 (some (.object sampleImageData)))),
        .video (.select sampleFile "blob:2"), .video .click,
        .video (.settle .networkError)]).dashboard.st.backendStatus = "checking"
      ∧ (App.step (App.run [.dashboard .mount, .image (.select sampleFile "blob:1")])
          (.dashboard (.healthSettle (.response 200)))).dashboard.st.backendStatus = "online" :=
  ⟨backendStatus_ownership.2.2.2.2.2 _ (by decide),
   backendStatus_ownership.2.2.2.2.1 _ (.response 200)⟩

/-! ## Upload controllers: extraction of the resultId -/

/-- The chain of `||` picks the first truthy candidate. -/
theorem extractResultId_eq_firstTruthy (d : ImageData) :
    ImageProcessor.extractResultId d = firstTruthy [d.result_id, d.resultId, d.uuid, d.id] := by
  unfold ImageProcessor.extractResultId firstTruthy JsVal.orElse
  cases h1 : d.result_id.truthy <;> cases h2 : d.resultId.truthy <;>
    cases h3 : d.uuid.truthy <;> cases h4 : d.id.truthy <;>
    simp [List.find?, h1, h2, h3, h4]

/-- C23. resultId extraction precedence: when a response is parsed to the object `d`,
the stored resultId is the first truthy value among `d.result_id`, `d.resultId`,
`d.uuid`, `d.id` in that order, and `null` when none of them is truthy; an absent field,
the empty string and 0 are not truthy. -/
theorem resultId_extraction_precedence (o : FetchOutcome ImageData) (s : ImageState)
    (d : ImageData) (h : o.parsed = some (.object d)) :
    (ImageProcessor.processImageSettle o s).1.resultId
        = firstTruthy [d.result_id, d.resultId, d.uuid, d.id]
      ∧ (d.result_id.truthy = true →
          (ImageProcessor.processImageSettle o s).1.resultId = d.result_id)
      ∧ (d.result_id.truthy = false → d.resultId.truthy = true →
          (ImageProcessor.processImageSettle o s).1.resultId = d.resultId)
      ∧ (d.result_id.truthy = false → d.resultId.truthy = false → d.uuid.truthy = true →
          (ImageProcessor.processImageSettle o s).1.resultId = d.uuid)
      ∧ (d.result_id.truthy = false → d.resultId.truthy = false → d.uuid.truthy = false →
          d.id.truthy = true → (ImageProcessor.processImageSettle o s).1.resultId = d.id)
      ∧ (d.result_id.truthy = false → d.resultId.truthy = false → d.uuid.truthy = false →
          d.id.truthy = false → (ImageProcessor.processImageSettle o s).1.resultId = .null)
      ∧ JsVal.undefined.truthy = false ∧ (JsVal.str "").truthy = false
      ∧ (JsVal.num 0).truthy = false := by
  have hid : (ImageProcessor.processImageSettle o s).1.resultId
      = ImageProcessor.extractResultId d := by
    rw [image_settle_object o s d h]
  refine ⟨?_, ?_, ?_, ?_, ?_, ?_, rfl, rfl, rfl⟩
  · rw [hid, extractResultId_eq_firstTruthy]
  · intro h1
    rw [hid]
    simp [ImageProcessor.extractResultId, JsVal.orElse, h1]
  · intro h1 h2
    rw [hid]
    simp [ImageProcessor.extractResultId, JsVal.orElse, h1, h2]
  · intro h1 h2 h3
    rw [hid]
    simp [ImageProcessor.extractResultId, JsVal.orElse, h1, h2, h3]
  · intro h1 h2 h3 h4
    rw [hid]
    simp [ImageProcessor.extractResultId, JsVal.orElse, h1, h2, h3, h4]
  · intro h1 h2 h3 h4
    rw [hid]
    simp [ImageProcessor.extractResultId, JsVal.orElse, h1, h2, h3, h4]

/-- Witness for C23: an empty result_id, a resultId of 0, then a uuid and an id; the
uuid is stored. -/
theorem resultId_extraction_precedence_witness :
    (ImageProcessor.processImageSettle
        (.response 200 (some (.object
          { result_id := .str "", resultId := .num 0, uuid := .str "u-1", id := .num 7 })))
        { selectedFile := some sampleFile, isProcessing := true }).1.resultId
      = .str "u-1" :=
  (resultId_extraction_precedence
    (.response 200 (some (.object
      { result_id := .str "", resultId := .num 0, uuid := .str "u-1", id := .num 7 })))
    { selectedFile := some sampleFile, isProcessing := true }
    { result_id := .str "", resultId := .num 0, uuid := .str "u-1", id := .num 7 }
    (by decide)).2.2.2.1 (by decide) (by decide) (by decide)

/-! ## Result renderer: a confidence of zero -/

/-- C24 at the failing input: for an image plate with confidence 0 the block
`{plate.confidence && ( ... )}` evaluates to the number 0, which React renders as the
bare text `0`: no `Confidence:` paragraph, but not the empty output of an absent
confidence either. The video renderer shows `N/A` for a confidence of 0 as it does for
an absent one. -/
theorem zero_confidence_renders_bare_zero :
    ImageProcessor.confidenceLine { confidence := some 0 } = .zero
      ∧ ImageProcessor.confidenceLine { confidence := none } = .absent
      ∧ ImageProcessor.confidenceLine { confidence := some 0 }
          ≠ ImageProcessor.confidenceLine { confidence := none }
      ∧ (∀ value, ImageProcessor.confidenceLine { confidence := some 0 } ≠ .paragraph value)
      ∧ VideoProcessor.confidenceText { confidence := some 0 } = "N/A"
      ∧ VideoProcessor.confidenceText { confidence := none } = "N/A" := by
  have hz : ImageProcessor.confidenceLine { confidence := some 0 } = .zero := by
    simp [ImageProcessor.confidenceLine]
  refine ⟨hz, rfl, ?_, ?_, ?_, rfl⟩
  · rw [hz]
    simp [ImageProcessor.confidenceLine]
  · intro value
    rw [hz]
    simp
  · simp [VideoProcessor.confidenceText]

/-! ## Result renderer: totality of the video panel -/

theorem collect_eq_none_of_mem {α : Type} (xs : List (Option α)) (h : none ∈ xs) :
    VideoProcessor.collect xs = none := by
  induction xs with
  | nil => simp at h
  | cons x xs ih =>
    cases x with
    | none => rfl
    | some a =>
      have h' : none ∈ xs := by simpa using h
      simp [VideoProcessor.collect, ih h']

theorem collect_isSome_of_all {α : Type} (xs : List (Option α))
    (h : ∀ x ∈ xs, x ≠ none) : ∃ ys, VideoProcessor.collect xs = some ys := by
  induction xs with
  | nil => exact ⟨[], rfl⟩
  | cons x xs ih =>
    cases x with
    | none => exact absurd rfl (h none (List.mem_cons_self _ _))
    | some a =>
      obtain ⟨ys, hys⟩ := ih (fun x hx => h x (List.mem_cons_of_mem _ hx))
      exact ⟨a :: ys, by simp [VideoProcessor.collect, hys]⟩

theorem mapIndexed_mem_of_mem {α β : Type} (f : α → Nat → β) (xs : List α) (start : Nat)
    (x : α) (hx : x ∈ xs) : ∃ k, f x k ∈ mapIndexed f start xs := by
  induction xs generalizing start with
  | nil => simp at hx
  | cons y ys ih =>
    simp only [List.mem_cons] at hx
    rcases hx with h | h
    · subst h
      exact ⟨start, by simp [mapIndexed]⟩
    · obtain ⟨k, hk⟩ := ih (start + 1) h
      exact ⟨k, by simp [mapIndexed, hk]⟩

theorem renderVehicle_eq_none_iff (rid : JsVal) (vehicle : Vehicle) (k : Nat) :
    VideoProcessor.renderVehicle rid vehicle k = none
      ↔ vehicle.best_frames = []
        ∨ ∃ best rest, vehicle.best_frames = best :: rest ∧ best.licence_plate_details = none := by
  unfold VideoProcessor.renderVehicle
  cases hb : vehicle.best_frames with
  | nil => simp
  | cons best rest =>
    cases hd : best.licence_plate_details with
    | none => simp [hd]
    | some details => simp [hd]

/-- C25. Totality of video rendering: the panel renders for every payload in which each
tracked vehicle has a non-empty best_frames list whose first entry carries
licence_plate_details (and for a payload without tracked vehicles); it throws for every
payload that contains a tracked vehicle whose best_frames list is empty or whose first
best frame lacks licence_plate_details; and the card of a vehicle depends on its first
best frame only. -/
theorem video_rendering_totality (d : VideoData) :
    (∀ vehicles, d.tracked_vehicles = some vehicles →
        (∀ v ∈ vehicles, ∃ best rest details,
          v.best_frames = best :: rest ∧ best.licence_plate_details = some details) →
        ∃ view, VideoProcessor.renderVehicles d = some view)
      ∧ (d.tracked_vehicles = none → ∃ view, VideoProcessor.renderVehicles d = some view)
      ∧ (∀ vehicles v, d.tracked_vehicles = some vehicles → v ∈ vehicles →
          (v.best_frames = []
            ∨ ∃ best rest, v.best_frames = best :: rest ∧ best.licence_plate_details = none) →
          VideoProcessor.renderVehicles d = none)
      ∧ ∀ (v : Vehicle) (k : Nat),
          VideoProcessor.renderVehicle d.result_id v k
            = VideoProcessor.renderVehicle d.result_id
                { v with best_frames := v.best_frames.take 1 } k := by
  refine ⟨?_, ?_, ?_, ?_⟩
  · intro vehicles hd hall
    unfold VideoProcessor.renderVehicles
    rw [hd]
    simp only
    split
    · have hsome : ∀ x ∈ mapIndexed (VideoProcessor.renderVehicle d.result_id) 0 vehicles,
          x ≠ none := by
        intro x hx hnone
        obtain ⟨v, hv, k, _, hxk⟩ := mem_mapIndexed _ _ _ _ hx
        rw [hnone] at hxk
        have := (renderVehicle_eq_none_iff d.result_id v k).mp hxk.symm
        obtain ⟨best, rest, details, hb, hdet⟩ := hall v hv
        rcases this with h | ⟨best', rest', hb', hdet'⟩
        · rw [hb] at h
          exact List.cons_ne_nil _ _ h
        · rw [hb] at hb'
          injection hb' with h1 h2
          subst h1
          rw [hdet] at hdet'
          exact Option.noConfusion hdet'
      obtain ⟨ys, hys⟩ := collect_isSome_of_all _ hsome
      exact ⟨.cards ys, by rw [hys]; rfl⟩
    · exact ⟨_, rfl⟩
  · intro hd
    exact ⟨.noVehicles "No vehicles or license plates detected", by
      simp [VideoProcessor.renderVehicles, hd]⟩
  · intro vehicles v hd hv hbad
    have hpos : vehicles.length > 0 := List.length_pos_of_mem hv
    obtain ⟨k, hk⟩ := mapIndexed_mem_of_mem (VideoProcessor.renderVehicle d.result_id)
      vehicles 0 v hv
    have hnone : VideoProcessor.renderVehicle d.result_id v k = none :=
      (renderVehicle_eq_none_iff d.result_id v k).mpr hbad
    rw [hnone] at hk
    simp [VideoProcessor.renderVehicles, hd, hpos, collect_eq_none_of_mem _ hk]
  · intro v k
    unfold VideoProcessor.renderVehicle
    cases hb : v.best_frames with
    | nil => rfl
    | cons best rest => rfl

/-- Witness for C25: the sample result renders; a result with a vehicle without best
frames throws. -/
theorem video_rendering_totality_witness :
    (∃ view, VideoProcessor.renderVehicles sampleVideoData = some view)
      ∧ VideoProcessor.renderVehicles
          { result_id := .str "abc123",
            tracked_vehicles := some [sampleVehicle, { vehicle_id := .num 8 }] } = none :=
  ⟨(video_rendering_totality sampleVideoData).1 [sampleVehicle] rfl (by
      intro v hv
      simp only [List.mem_singleton] at hv
      subst hv
      exact ⟨_, _, _, rfl, rfl⟩),
   (video_rendering_totality
      { result_id := .str "abc123",
        tracked_vehicles := some [sampleVehicle, { vehicle_id := .num 8 }] }).2.2.1
      [sampleVehicle, { vehicle_id := .num 8 }] { vehicle_id := .num 8 } rfl (by simp)
      (Or.inl rfl)⟩

/-! ## Upload controllers: the frame of a submission -/

theorem image_settle_frame (o : FetchOutcome ImageData) (s : ImageState) :
    (ImageProcessor.processImageSettle o s).1.selectedFile = s.selectedFile
      ∧ (ImageProcessor.processImageSettle o s).1.previewUrl = s.previewUrl
      ∧ (ImageProcessor.processImageSettle o s).1.isProcessing = false := by
  cases hp : o.parsed with
  | none =>
    rw [image_settle_of_not_parsed o s hp]
    exact ⟨rfl, rfl, rfl⟩
  | some data =>
    cases data with
    | null =>
      rw [image_settle_null o s hp]
      exact ⟨rfl, rfl, rfl⟩
    | object d =>
      rw [image_settle_object o s d hp]
      exact ⟨rfl, rfl, rfl⟩

theorem video_settle_frame (o : FetchOutcome VideoData) (s : VideoState) :
    (VideoProcessor.processVideoSettle o s).1.selectedFile = s.selectedFile
      ∧ (VideoProcessor.processVideoSettle o s).1.previewUrl = s.previewUrl
      ∧ (VideoProcessor.processVideoSettle o s).1.isProcessing = false := by
  cases hp : o.parsed with
  | none =>
    rw [video_settle_of_not_parsed o s hp]
    exact ⟨rfl, rfl, rfl⟩
  | some data =>
    rw [video_settle_parsed o s data hp]
    exact ⟨rfl, rfl, rfl⟩

/-- C26. Submit leaves the selection untouched and always ends idle: for every state of
either controller with a file selected and every outcome of the request (success or any
failure), after the run of `processImage` or `processVideo` selectedFile and previewUrl
are what they were and isProcessing is false. -/
theorem submit_keeps_selection_and_ends_idle (f : File) :
    (∀ (o : FetchOutcome ImageData) (s : ImageState), s.selectedFile = some f →
        (ImageProcessor.processImage o s).1.selectedFile = some f
          ∧ (ImageProcessor.processImage o s).1.previewUrl = s.previewUrl
          ∧ (ImageProcessor.processImage o s).1.isProcessing = false)
      ∧ ∀ (o : FetchOutcome VideoData) (s : VideoState), s.selectedFile = some f →
        (VideoProcessor.processVideo o s).1.selectedFile = some f
          ∧ (VideoProcessor.processVideo o s).1.previewUrl = s.previewUrl
          ∧ (VideoProcessor.processVideo o s).1.isProcessing = false := by
  constructor
  · intro o s hf
    simp only [ImageProcessor.processImage, hf, ImageProcessor.processImageBegin]
    exact ⟨(image_settle_frame o _).1, (image_settle_frame o _).2.1,
      (image_settle_frame o _).2.2⟩
  · intro o s hf
    simp only [VideoProcessor.processVideo, hf, VideoProcessor.processVideoBegin]
    exact ⟨(video_settle_frame o _).1, (video_settle_frame o _).2.1,
      (video_settle_frame o _).2.2⟩

/-- Witness for C26: a failed image submission and a successful video submission. -/
theorem submit_keeps_selection_and_ends_idle_witness :
    ((ImageProcessor.processImage (.response 500 none)
          { selectedFile := some sampleFile, previewUrl := some "blob:1" }).1.selectedFile
        = some sampleFile
      ∧ (ImageProcessor.processImage (.response 500 none)
          { selectedFile := some sampleFile, previewUrl := some "blob:1" }).1.previewUrl
        = some "blob:1"
      ∧ (ImageProcessor.processImage (.response 500 none)
          { selectedFile := some sampleFile, previewUrl := some "blob:1" }).1.isProcessing
        = false)
      ∧ (VideoProcessor.processVideo (.response 200 (some (.object sampleVideoData)))
          { selectedFile := some sampleFile, previewUrl := some "blob:2" }).1.isProcessing
        = false :=
  ⟨(submit_keeps_selection_and_ends_idle sampleFile).1 (.response 500 none)
      { selectedFile := some sampleFile, previewUrl := some "blob:1" } rfl,
   ((submit_keeps_selection_and_ends_idle sampleFile).2
      (.response 200 (some (.object sampleVideoData)))
      { selectedFile := some sampleFile, previewUrl := some "blob:2" } rfl).2.2⟩

/-! ## Dashboard: switching the OCR mode -/

/-- C27. OCR mode switch failure: when the request of `switchMode` fails (the network
fails or the body does not parse), the stored mode is what it was before the click,
loading is still true, so a further click on the toggle does nothing, and the error
propagates; loading becomes false again only when the request is answered with a body
that parses to an object. -/
theorem ocr_switch_failure :
    (∀ (s : OcrState) (o : FetchOutcome OcrData),
        (o = .networkError ∨ ∃ status, o = .response status none) →
        (OCRModeToggle.switchModeSettle o (OCRModeToggle.switchModeBegin s).1).state.ocrMode
            = s.ocrMode
          ∧ (OCRModeToggle.switchModeSettle o (OCRModeToggle.switchModeBegin s).1).state.loading
            = true
          ∧ (OCRModeToggle.switchModeSettle o (OCRModeToggle.switchModeBegin s).1).rejected
            = true
          ∧ OCRModeToggle.clickSwitch
              (OCRModeToggle.switchModeSettle o (OCRModeToggle.switchModeBegin s).1).state
            = ((OCRModeToggle.switchModeSettle o (OCRModeToggle.switchModeBegin s).1).state, []))
      ∧ ∀ (s : OcrState) (o : FetchOutcome OcrData), s.loading = true →
          (OCRModeToggle.switchModeSettle o s).state.loading = false →
          ∃ status d, o = .response status (some (.object d)) := by
  constructor
  · intro s o h
    rcases h with h | ⟨status, h⟩ <;> subst h <;>
      simp [OCRModeToggle.switchModeSettle, OCRModeToggle.switchModeBegin,
        OCRModeToggle.clickSwitch]
  · intro s o hs h
    cases o with
    | networkError =>
      simp [OCRModeToggle.switchModeSettle, hs] at h
    | response status body =>
      cases body with
      | none => simp [OCRModeToggle.switchModeSettle, hs] at h
      | some data =>
        cases data with
        | null => simp [OCRModeToggle.switchModeSettle, hs] at h
        | object d => exact ⟨status, d, rfl⟩

/-- Witness for C27: a switch from `local` whose request fails on the network. -/
theorem ocr_switch_failure_witness :
    (OCRModeToggle.switchModeSettle .networkError
        (OCRModeToggle.switchModeBegin OCRModeToggle.initial).1).state.ocrMode = .str "local"
      ∧ (OCRModeToggle.switchModeSettle .networkError
          (OCRModeToggle.switchModeBegin OCRModeToggle.initial).1).state.loading = true
      ∧ OCRModeToggle.clickSwitch { ocrMode := .str "local", loading := true }
        = ({ ocrMode := .str "local", loading := true }, []) :=
  ⟨(ocr_switch_failure.1 OCRModeToggle.initial .networkError (Or.inl rfl)).1,
   (ocr_switch_failure.1 OCRModeToggle.initial .networkError (Or.inl rfl)).2.1,
   (ocr_switch_failure.1 OCRModeToggle.initial .networkError (Or.inl rfl)).2.2.2⟩

/-- C28. OCR mode toggle target: `switchMode` requests `roboflow` when the stored mode is
`local` and `local` for every other stored value; so, with a backend that echoes the
requested mode, two clicks in a row, each answered before the next, lead from `local`
back to `local` and from `roboflow` back to `roboflow`. -/
theorem ocr_toggle_target :
    (∀ s : OcrState, s.ocrMode = .str "local" →
        (OCRModeToggle.switchModeBegin s).2
          = [.fetchPostJson "http://localhost:8000/api/v1/ocr-mode" "roboflow"])
      ∧ (∀ s : OcrState, s.ocrMode ≠ .str "local" →
        (OCRModeToggle.switchModeBegin s).2
          = [.fetchPostJson "http://localhost:8000/api/v1/ocr-mode" "local"])
      ∧ ∀ s : OcrState, s.loading = false →
          (s.ocrMode = .str "local" ∨ s.ocrMode = .str "roboflow") →
          OCRModeToggle.echoSwitch (OCRModeToggle.echoSwitch s) = s := by
  refine ⟨?_, ?_, ?_⟩
  · intro s h
    simp [OCRModeToggle.switchModeBegin, OCRModeToggle.newMode, h, OCRModeToggle.endpoint]
  · intro s h
    simp [OCRModeToggle.switchModeBegin, OCRModeToggle.newMode, h, OCRModeToggle.endpoint]
  · intro s hl hm
    cases s with
    | mk ocrMode loading =>
      simp only at hl hm
      subst hl
      rcases hm with hm | hm <;> subst hm <;> decide

/-- Witness for C28: the first click from `local` requests `roboflow`; two echoed
switches from `roboflow` end at `roboflow`. -/
theorem ocr_toggle_target_witness :
    (OCRModeToggle.switchModeBegin OCRModeToggle.initial).2
        = [.fetchPostJson "http://localhost:8000/api/v1/ocr-mode" "roboflow"]
      ∧ OCRModeToggle.echoSwitch (OCRModeToggle.echoSwitch { ocrMode := .str "roboflow" })
        = { ocrMode := .str "roboflow" } :=
  ⟨ocr_toggle_target.1 OCRModeToggle.initial rfl,
   ocr_toggle_target.2.2 { ocrMode := .str "roboflow" } rfl (Or.inr rfl)⟩

/-! ## Dashboard: confidence colours -/

/-- C29. Recent-detection confidence colour bands: for every detection with a numeric
confidence `c` the class of the confidence cell is green exactly when `c > 90`, yellow
exactly when `75 < c ≤ 90` and red exactly when `c ≤ 75`; the three classes are
different, so exactly one band applies. -/
theorem confidence_colour_bands (detection : Detection) (c : ℚ)
    (h : detection.confidence = some c) :
    (Dashboard.confidenceClass detection = "text-green-400" ↔ 90 < c)
      ∧ (Dashboard.confidenceClass detection = "text-yellow-400" ↔ 75 < c ∧ c ≤ 90)
      ∧ (Dashboard.confidenceClass detection = "text-red-400" ↔ c ≤ 75) := by
  unfold Dashboard.confidenceClass
  rw [h]
  simp only [gt_iff_lt]
  by_cases h90 : 90 < c
  · rw [if_pos h90]
    exact ⟨⟨fun _ => h90, fun _ => rfl⟩,
      ⟨fun hbad => absurd hbad (by decide), fun hh => absurd h90 (not_lt.mpr hh.2)⟩,
      ⟨fun hbad => absurd hbad (by decide), fun hle => absurd h90 (by linarith)⟩⟩
  · rw [if_neg h90]
    by_cases h75 : 75 < c
    · rw [if_pos h75]
      exact ⟨⟨fun hbad => absurd hbad (by decide), fun hh => absurd hh h90⟩,
        ⟨fun _ => ⟨h75, not_lt.mp h90⟩, fun _ => rfl⟩,
        ⟨fun hbad => absurd hbad (by decide), fun hle => absurd h75 (not_lt.mpr hle)⟩⟩
    · rw [if_neg h75]
      exact ⟨⟨fun hbad => absurd hbad (by decide), fun hh => absurd hh h90⟩,
        ⟨fun hbad => absurd hbad (by decide), fun hh => absurd hh.1 h75⟩,
        ⟨fun _ => not_lt.mp h75, fun _ => rfl⟩⟩

/-- Witness for C29: a confidence of 90 is yellow and one of 75 is red. -/
theorem confidence_colour_bands_witness :
    Dashboard.confidenceClass { plate := .str "ABC123", confidence := some 90 }
        = "text-yellow-400"
      ∧ Dashboard.confidenceClass { plate := .str "ABC123", confidence := some 75 }
        = "text-red-400" :=
  ⟨(confidence_colour_bands { plate := .str "ABC123", confidence := some 90 } 90 rfl).2.1.mpr
      ⟨by norm_num, le_refl _⟩,
   (confidence_colour_bands { plate := .str "ABC123", confidence := some 75 } 75 rfl).2.2.mpr
      (le_refl _)⟩

end ANPR
